import Mathlib

/-!
Verification of the planka-mcp protocol gateway and resource-resolution layer.

The Go program is shallowly embedded: JSON values become the `JValue`
inductive (Go decodes JSON into `map[string]interface{}`, strings, `float64`
numbers and booleans; we model `float64` positions as `Rat`, which is exact
for every value the claims mention), the Planka HTTP API becomes a `Backend`
record of typed endpoint functions returning `Except String`, and each Go
function of `internal/planka` and `internal/mcp` becomes a Lean function of
the same name.  Timestamps and the side-loaded child slices on the entity
structs are omitted: no operation under verification reads them.  A response
body that fails Go's `json.Unmarshal` is folded into the endpoint's
`Except.error` case, matching the client's uniform error wrapping.
-/

/-- JSON values as Go's `encoding/json` decodes them into `interface{}`. -/
inductive JValue where
  | jnull : JValue
  | jbool : Bool → JValue
  | jnum : Rat → JValue
  | jstr : String → JValue
  | jarr : List JValue → JValue
  | jobj : List (String × JValue) → JValue

open JValue

/-- an argument map / request map / outbound body, decoded JSON object. -/
abbrev JObj := List (String × JValue)

/-- lookup of a key in a decoded JSON object (Go map indexing). -/
def getArg (o : JObj) (key : String) : Option JValue :=
  (o.find? (fun kv => kv.fst = key)).map Prod.snd

/-- Go type assertion `v.(string)` with its comma-ok result. -/
def asString : Option JValue → Option String
  | some (jstr s) => some s
  | _ => none

/-- Go type assertion `v.(float64)` with its comma-ok result. -/
def asNum : Option JValue → Option Rat
  | some (jnum q) => some q
  | _ => none

/-- Go type assertion `v.(bool)` with its comma-ok result. -/
def asBool : Option JValue → Option Bool
  | some (jbool b) => some b
  | _ => none

/-- Go type assertion `v.(map[string]interface{})` with its comma-ok result. -/
def asObj : Option JValue → Option JObj
  | some (jobj o) => some o
  | _ => none

/-- field lookup inside a JSON object value. -/
def jlookup (v : JValue) (key : String) : Option JValue :=
  match v with
  | jobj o => getArg o key
  | _ => none

/-! Entity structs from `models.go` (package planka).  `List` is renamed
`BList` because `List` is Lean's list type; `CreatedAt`/`UpdatedAt` and the
omitempty child slices are omitted (unused by the embedded operations). -/

/-- Go struct `Project`. -/
structure Project where
  id : String
  name : String
  description : String
deriving DecidableEq

/-- Go struct `Board`. -/
structure Board where
  id : String
  name : String
  description : String
  projectId : String
deriving DecidableEq

/-- Go struct `List` (a Planka list of cards). -/
structure BList where
  id : String
  name : String
  boardId : String
  position : Rat
deriving DecidableEq

/-- Go struct `Card`; `DueDate *time.Time` is modelled as the RFC3339 string
it marshals to, present iff the pointer is non-nil. -/
structure Card where
  id : String
  name : String
  description : String
  listId : String
  position : Rat
  dueDate : Option String
deriving DecidableEq

/-- Go struct `Task`, renamed because `Task` is Lean's task type. -/
structure PTask where
  id : String
  name : String
  cardId : String
  position : Rat
  isCompleted : Bool
deriving DecidableEq

/-- Go struct `Comment`. -/
structure Comment where
  id : String
  text : String
  cardId : String
  userId : String
deriving DecidableEq

/-- Go struct `Stopwatch`. -/
structure Stopwatch where
  id : String
  cardId : String
  startedAt : Option String
  duration : Int
deriving DecidableEq

/-- Go struct `CreateProjectRequest`. -/
structure CreateProjectRequest where
  name : String
  description : String
deriving DecidableEq

/-- Go struct `CreateBoardRequest`; `Client.CreateBoard` reads a `Position`
field from it, which the Go zero value leaves at 0 when a caller never sets
it. -/
structure CreateBoardRequest where
  name : String
  description : String
  projectId : String
  position : Rat
deriving DecidableEq

/-- Go struct `CreateListRequest`. -/
structure CreateListRequest where
  name : String
  boardId : String
  position : Rat
deriving DecidableEq

/-- Go struct `CreateCardRequest`. -/
structure CreateCardRequest where
  name : String
  description : String
  listId : String
  position : Rat
  dueDate : Option String
deriving DecidableEq

/-- Go struct `UpdateCardRequest`: every field is a pointer with
`omitempty`, so `none` means the key is absent from the marshalled patch. -/
structure UpdateCardRequest where
  name : Option String
  description : Option String
  listId : Option String
  position : Option Rat
  dueDate : Option String
deriving DecidableEq

/-- Go struct `CreateTaskRequest`. -/
structure CreateTaskRequest where
  name : String
  cardId : String
  position : Rat
deriving DecidableEq

/-- Go struct `UpdateTaskRequest` (pointer fields with `omitempty`). -/
structure UpdateTaskRequest where
  name : Option String
  isCompleted : Option Bool
  position : Option Rat
deriving DecidableEq

/-- Go struct `CreateCommentRequest`. -/
structure CreateCommentRequest where
  text : String
  cardId : String
deriving DecidableEq

/-- The side-loaded `included` map of a single-entity response, keyed by
entity kind; `none` models the key being absent from the map (Go's comma-ok
on `resp.Included[kind]` failing), which is distinct from an empty slice. -/
structure Included where
  boards : Option (List Board)
  lists : Option (List BList)
  cards : Option (List Card)
  tasks : Option (List PTask)
  comments : Option (List Comment)

/-- The backing Planka service, one typed field per HTTP endpoint the client
calls.  Each field returns `Except String`: the error case covers network
failure, a non-2xx status, an HTML body, and an undecodable JSON body, which
`client.go` all surface as a single wrapped error. -/
structure Backend where
  getProjectsEp : Except String (List Project)
  getProjectEp : String → Except String (Project × Included)
  getBoardEp : String → Except String (Board × Included)
  getListEp : String → Except String (BList × Included)
  getCardEp : String → Except String (Card × Included)
  getCommentsEp : String → Except String (List Comment)
  getStopwatchEp : String → Except String Stopwatch
  postProjectEp : CreateProjectRequest → Except String Project
  postBoardEp : String → JObj → Except String Board
  postListEp : String → JObj → Except String BList
  postCardEp : String → JObj → Except String Card
  postTaskEp : String → JObj → Except String PTask
  postCommentEp : CreateCommentRequest → Except String Comment
  postStopwatchStartEp : String → Except String Stopwatch
  postStopwatchStopEp : String → Except String Stopwatch
  postStopwatchResetEp : String → Except String Stopwatch
  patchCardEp : String → JObj → Except String Card
  patchTaskEp : String → JObj → Except String PTask
  deleteProjectEp : String → Except String Unit
  deleteBoardEp : String → Except String Unit
  deleteListEp : String → Except String Unit
  deleteCardEp : String → Except String Unit
  deleteTaskEp : String → Except String Unit
  deleteCommentEp : String → Except String Unit

/-! Client operations from the planka package (`src/unnamed/part_001`).
Each takes the `Backend` explicitly, standing for the Go receiver's
authenticated HTTP client.  Bodies built as Go `map[string]interface{}`
are listed in the alphabetical key order `json.Marshal` emits for maps. -/

/-- `Client.GetProjects`: GET `/api/projects`, items extracted. -/
def Client.GetProjects (b : Backend) : Except String (List Project) :=
  b.getProjectsEp

/-- `Client.GetProject`: GET `/api/projects/id`, the `item` field. -/
def Client.GetProject (b : Backend) (projectID : String) : Except String Project :=
  (b.getProjectEp projectID).map Prod.fst

/-- `Client.CreateProject`: POST `/api/projects` with the request struct. -/
def Client.CreateProject (b : Backend) (req : CreateProjectRequest) : Except String Project :=
  b.postProjectEp req

/-- `Client.DeleteProject`. -/
def Client.DeleteProject (b : Backend) (projectID : String) : Except String Unit :=
  b.deleteProjectEp projectID

/-- `Client.GetBoards`: fetch the project and read the `boards` kind of its
included bundle; an absent kind yields the empty slice, not an error. -/
def Client.GetBoards (b : Backend) (projectID : String) : Except String (List Board) :=
  match b.getProjectEp projectID with
  | .error e => .error e
  | .ok (_, included) =>
    match included.boards with
    | some boards => .ok boards
    | none => .ok []

/-- `Client.GetBoard`: GET `/api/boards/id`, the `item` field. -/
def Client.GetBoard (b : Backend) (boardID : String) : Except String Board :=
  (b.getBoardEp boardID).map Prod.fst

/-- body of `Client.CreateBoard`: `name` and `position` always, plus
`description` when non-empty (keys in marshalled order). -/
def boardCreateBody (name : String) (position : Rat) (description : String) : JObj :=
  (if description ≠ "" then [("description", jstr description)] else []) ++
  [("name", jstr name), ("position", jnum position)]

/-- `Client.CreateBoard`: POST `/api/projects/pid/boards`; a zero position
is replaced by the 65535 default before the body is built. -/
def Client.CreateBoard (b : Backend) (req : CreateBoardRequest) : Except String Board :=
  let position := if req.position = 0 then (65535 : Rat) else req.position
  b.postBoardEp req.projectId (boardCreateBody req.name position req.description)

/-- `Client.DeleteBoard`. -/
def Client.DeleteBoard (b : Backend) (boardID : String) : Except String Unit :=
  b.deleteBoardEp boardID

/-- `Client.GetLists`: fetch the board and read the `lists` kind of its
included bundle; an absent kind yields the empty slice, not an error. -/
def Client.GetLists (b : Backend) (boardID : String) : Except String (List BList) :=
  match b.getBoardEp boardID with
  | .error e => .error e
  | .ok (_, included) =>
    match included.lists with
    | some lists => .ok lists
    | none => .ok []

/-- `Client.GetList`: GET `/api/lists/id`, the `item` field. -/
def Client.GetList (b : Backend) (listID : String) : Except String BList :=
  (b.getListEp listID).map Prod.fst

/-- `Client.CreateList`: POST `/api/boards/bid/lists`; a zero position is
replaced by the 65535 default before the body is built. -/
def Client.CreateList (b : Backend) (req : CreateListRequest) : Except String BList :=
  let position := if req.position = 0 then (65535 : Rat) else req.position
  b.postListEp req.boardId [("name", jstr req.name), ("position", jnum position)]

/-- `Client.DeleteList`. -/
def Client.DeleteList (b : Backend) (listID : String) : Except String Unit :=
  b.deleteListEp listID

/-- the final step of `Client.GetCards`: fetch the board, read its `cards`
bundle (absent kind means no cards) and keep the cards of the requested
list. -/
def cardsOfBoard (b : Backend) (boardID listID : String) : Except String (List Card) :=
  match b.getBoardEp boardID with
  | .error e => .error ("failed to get board " ++ boardID ++ ": " ++ e)
  | .ok (_, included) =>
    match included.cards with
    | some allCards => .ok (allCards.filter (fun card => card.listId = listID))
    | none => .ok []

/-- the inner board loop of `Client.GetCards`'s fallback search: the Go
`boardID` variable starts out as the empty string and the loop only breaks
once it is non-empty, so a board is adopted exactly when its list bundle
contains the wanted id and its own id is non-empty; boards whose list fetch
fails are skipped (`continue`). -/
def searchBoards (b : Backend) (listID : String) : List Board → String
  | [] => ""
  | board :: rest =>
    match Client.GetLists b board.id with
    | .error _ => searchBoards b listID rest
    | .ok lists =>
      if lists.any (fun l => l.id = listID) ∧ board.id ≠ "" then board.id
      else searchBoards b listID rest

/-- the outer project loop of `Client.GetCards`'s fallback search; projects
whose board fetch fails are skipped (`continue`). -/
def searchProjects (b : Backend) (listID : String) : List Project → String
  | [] => ""
  | project :: rest =>
    match Client.GetBoards b project.id with
    | .error _ => searchProjects b listID rest
    | .ok boards =>
      let boardID := searchBoards b listID boards
      if boardID ≠ "" then boardID else searchProjects b listID rest

/-- `Client.GetCards`: try the direct list lookup first; on failure fall
back to the exhaustive project → board → list search; an empty board id by
either path yields the empty collection; finally fetch the board and filter
its card bundle to the requested list. -/
def Client.GetCards (b : Backend) (listID : String) : Except String (List Card) :=
  match b.getListEp listID with
  | .error _ =>
    match Client.GetProjects b with
    | .error e => .error ("failed to get projects to find board: " ++ e)
    | .ok projects =>
      let boardID := searchProjects b listID projects
      if boardID = "" then .ok [] else cardsOfBoard b boardID listID
  | .ok (item, _) =>
    if item.boardId = "" then .ok []
    else cardsOfBoard b item.boardId listID

/-- `Client.GetCard`: GET `/api/cards/id`, the `item` field. -/
def Client.GetCard (b : Backend) (cardID : String) : Except String Card :=
  (b.getCardEp cardID).map Prod.fst

/-- body of `Client.CreateCard`: `name` and `position` always, plus
`description` when non-empty and `dueDate` when the pointer is non-nil
(keys in marshalled order). -/
def cardCreateBody (name : String) (position : Rat) (description : String)
    (dueDate : Option String) : JObj :=
  (if description ≠ "" then [("description", jstr description)] else []) ++
  (match dueDate with
   | some d => [("dueDate", jstr d)]
   | none => []) ++
  [("name", jstr name), ("position", jnum position)]

/-- `Client.CreateCard`: POST `/api/lists/lid/cards`; a zero position is
replaced by the 65535 default before the body is built. -/
def Client.CreateCard (b : Backend) (req : CreateCardRequest) : Except String Card :=
  let position := if req.position = 0 then (65535 : Rat) else req.position
  b.postCardEp req.listId (cardCreateBody req.name position req.description req.dueDate)

/-- marshalled body of `UpdateCardRequest`: pointer fields with `omitempty`,
so exactly the non-nil fields appear, in struct order. -/
def updateCardPatch (req : UpdateCardRequest) : JObj :=
  (match req.name with
   | some n => [("name", jstr n)]
   | none => []) ++
  (match req.description with
   | some d => [("description", jstr d)]
   | none => []) ++
  (match req.listId with
   | some l => [("listId", jstr l)]
   | none => []) ++
  (match req.position with
   | some p => [("position", jnum p)]
   | none => []) ++
  (match req.dueDate with
   | some d => [("dueDate", jstr d)]
   | none => [])

/-- `Client.UpdateCard`: PATCH `/api/cards/id` with the marshalled request. -/
def Client.UpdateCard (b : Backend) (cardID : String) (req : UpdateCardRequest) :
    Except String Card :=
  b.patchCardEp cardID (updateCardPatch req)

/-- `Client.DeleteCard`. -/
def Client.DeleteCard (b : Backend) (cardID : String) : Except String Unit :=
  b.deleteCardEp cardID

/-- `Client.MoveCard`: an update patch carrying exactly `listId` and
`position`. -/
def Client.MoveCard (b : Backend) (cardID listID : String) (position : Rat) :
    Except String Card :=
  Client.UpdateCard b cardID
    { name := none, description := none, listId := some listID,
      position := some position, dueDate := none }

/-- `Client.GetTasks`: fetch the card and read the `tasks` kind of its
included bundle; an absent kind yields the empty slice, not an error. -/
def Client.GetTasks (b : Backend) (cardID : String) : Except String (List PTask) :=
  match b.getCardEp cardID with
  | .error e => .error e
  | .ok (_, included) =>
    match included.tasks with
    | some tasks => .ok tasks
    | none => .ok []

/-- `Client.CreateTask`: POST `/api/cards/cid/tasks`; a zero position is
replaced by the 65535 default before the body is built. -/
def Client.CreateTask (b : Backend) (req : CreateTaskRequest) : Except String PTask :=
  let position := if req.position = 0 then (65535 : Rat) else req.position
  b.postTaskEp req.cardId [("name", jstr req.name), ("position", jnum position)]

/-- marshalled body of `UpdateTaskRequest` (pointer fields, `omitempty`). -/
def updateTaskPatch (req : UpdateTaskRequest) : JObj :=
  (match req.name with
   | some n => [("name", jstr n)]
   | none => []) ++
  (match req.isCompleted with
   | some c => [("isCompleted", jbool c)]
   | none => []) ++
  (match req.position with
   | some p => [("position", jnum p)]
   | none => [])

/-- `Client.UpdateTask`: PATCH `/api/tasks/id` with the marshalled request. -/
def Client.UpdateTask (b : Backend) (taskID : String) (req : UpdateTaskRequest) :
    Except String PTask :=
  b.patchTaskEp taskID (updateTaskPatch req)

/-- `Client.DeleteTask`. -/
def Client.DeleteTask (b : Backend) (taskID : String) : Except String Unit :=
  b.deleteTaskEp taskID

/-- `Client.GetComments`: try the comments endpoint; on failure fall back
to the card's included `comments` kind, an absent kind yielding the empty
slice. -/
def Client.GetComments (b : Backend) (cardID : String) : Except String (List Comment) :=
  match b.getCommentsEp cardID with
  | .ok resp => .ok resp
  | .error _ =>
    match b.getCardEp cardID with
    | .error e => .error ("failed to get card: " ++ e)
    | .ok (_, included) =>
      match included.comments with
      | some comments => .ok comments
      | none => .ok []

/-- `Client.CreateComment`: POST `/api/comments` with the request struct. -/
def Client.CreateComment (b : Backend) (req : CreateCommentRequest) : Except String Comment :=
  b.postCommentEp req

/-- `Client.DeleteComment`. -/
def Client.DeleteComment (b : Backend) (commentID : String) : Except String Unit :=
  b.deleteCommentEp commentID

/-- `Client.GetStopwatch`. -/
def Client.GetStopwatch (b : Backend) (cardID : String) : Except String Stopwatch :=
  b.getStopwatchEp cardID

/-- `Client.StartStopwatch`. -/
def Client.StartStopwatch (b : Backend) (cardID : String) : Except String Stopwatch :=
  b.postStopwatchStartEp cardID

/-- `Client.StopStopwatch`. -/
def Client.StopStopwatch (b : Backend) (cardID : String) : Except String Stopwatch :=
  b.postStopwatchStopEp cardID

/-- `Client.ResetStopwatch`. -/
def Client.ResetStopwatch (b : Backend) (cardID : String) : Except String Stopwatch :=
  b.postStopwatchResetEp cardID

/-! Tool handlers from `internal/mcp/tools.go`.  A Go handler returns the
tool result serialized with `json.MarshalIndent`; we carry the decoded
object (`JValue`) that this text decodes back to, so properties about the
text's content are stated on the object.  `time.Parse(time.RFC3339, s)` is
an external pure library function, passed in as an oracle
`parseTime : String → Option String` returning the parsed value's RFC3339
rendering, `none` on a parse failure. -/

/-- JSON object a marshalled `Project` decodes to. -/
def projectToJson (p : Project) : JValue :=
  jobj [("id", jstr p.id), ("name", jstr p.name), ("description", jstr p.description)]

/-- JSON object a marshalled `Board` decodes to. -/
def boardToJson (bd : Board) : JValue :=
  jobj [("id", jstr bd.id), ("name", jstr bd.name),
        ("description", jstr bd.description), ("projectId", jstr bd.projectId)]

/-- JSON object a marshalled `List` decodes to. -/
def blistToJson (l : BList) : JValue :=
  jobj [("id", jstr l.id), ("name", jstr l.name),
        ("boardId", jstr l.boardId), ("position", jnum l.position)]

/-- JSON object a marshalled `Card` decodes to (`dueDate` has `omitempty`). -/
def cardToJson (c : Card) : JValue :=
  jobj ([("id", jstr c.id), ("name", jstr c.name),
         ("description", jstr c.description), ("listId", jstr c.listId),
         ("position", jnum c.position)] ++
        (match c.dueDate with
         | some d => [("dueDate", jstr d)]
         | none => []))

/-- JSON object a marshalled `Task` decodes to. -/
def ptaskToJson (t : PTask) : JValue :=
  jobj [("id", jstr t.id), ("name", jstr t.name), ("cardId", jstr t.cardId),
        ("position", jnum t.position), ("isCompleted", jbool t.isCompleted)]

/-- JSON object a marshalled `Comment` decodes to. -/
def commentToJson (c : Comment) : JValue :=
  jobj [("id", jstr c.id), ("text", jstr c.text),
        ("cardId", jstr c.cardId), ("userId", jstr c.userId)]

/-- JSON object a marshalled `Stopwatch` decodes to (`startedAt` has
`omitempty`). -/
def stopwatchToJson (s : Stopwatch) : JValue :=
  jobj ([("id", jstr s.id), ("cardId", jstr s.cardId)] ++
        (match s.startedAt with
         | some t => [("startedAt", jstr t)]
         | none => []) ++
        [("duration", jnum (s.duration : Rat))])

/-- JSON object the literal success text of the delete handlers decodes to. -/
def successJson : JValue := jobj [("success", jbool true)]

/-- `handleGetProjects`. -/
def handleGetProjects (b : Backend) : Except String JValue :=
  (Client.GetProjects b).map (fun ps => jarr (ps.map projectToJson))

/-- `handleGetProject`. -/
def handleGetProject (b : Backend) (args : JObj) : Except String JValue :=
  match asString (getArg args "projectId") with
  | none => .error "missing projectId"
  | some projectID => (Client.GetProject b projectID).map projectToJson

/-- `handleCreateProject`: `description` is optional and defaults to the
empty string. -/
def handleCreateProject (b : Backend) (args : JObj) : Except String JValue :=
  match asString (getArg args "name") with
  | none => .error "missing name"
  | some name =>
    let req : CreateProjectRequest :=
      { name := name, description := (asString (getArg args "description")).getD "" }
    (Client.CreateProject b req).map projectToJson

/-- `handleGetBoards`. -/
def handleGetBoards (b : Backend) (args : JObj) : Except String JValue :=
  match asString (getArg args "projectId") with
  | none => .error "missing projectId"
  | some projectID => (Client.GetBoards b projectID).map (fun bs => jarr (bs.map boardToJson))

/-- `handleGetBoard`. -/
def handleGetBoard (b : Backend) (args : JObj) : Except String JValue :=
  match asString (getArg args "boardId") with
  | none => .error "missing boardId"
  | some boardID => (Client.GetBoard b boardID).map boardToJson

/-- `handleCreateBoard`: never reads a position argument, so the request's
position keeps the Go zero value 0. -/
def handleCreateBoard (b : Backend) (args : JObj) : Except String JValue :=
  match asString (getArg args "name") with
  | none => .error "missing name"
  | some name =>
    match asString (getArg args "projectId") with
    | none => .error "missing projectId"
    | some projectID =>
      let req : CreateBoardRequest :=
        { name := name, projectId := projectID,
          description := (asString (getArg args "description")).getD "", position := 0 }
      (Client.CreateBoard b req).map boardToJson

/-- `handleGetLists`. -/
def handleGetLists (b : Backend) (args : JObj) : Except String JValue :=
  match asString (getArg args "boardId") with
  | none => .error "missing boardId"
  | some boardID => (Client.GetLists b boardID).map (fun ls => jarr (ls.map blistToJson))

/-- `handleGetList`. -/
def handleGetList (b : Backend) (args : JObj) : Except String JValue :=
  match asString (getArg args "listId") with
  | none => .error "missing listId"
  | some listID => (Client.GetList b listID).map blistToJson

/-- `handleCreateList`: a position argument is used only when it asserts to
`float64` and is strictly positive; otherwise the 65535 default is used. -/
def handleCreateList (b : Backend) (args : JObj) : Except String JValue :=
  match asString (getArg args "name") with
  | none => .error "missing name"
  | some name =>
    match asString (getArg args "boardId") with
    | none => .error "missing boardId"
    | some boardID =>
      let position :=
        match asNum (getArg args "position") with
        | some pos => if pos > 0 then pos else (65535 : Rat)
        | none => (65535 : Rat)
      let req : CreateListRequest := { name := name, boardId := boardID, position := position }
      (Client.CreateList b req).map blistToJson

/-- `handleGetCards`. -/
def handleGetCards (b : Backend) (args : JObj) : Except String JValue :=
  match asString (getArg args "listId") with
  | none => .error "missing listId"
  | some listID => (Client.GetCards b listID).map (fun cs => jarr (cs.map cardToJson))

/-- `handleGetCard`. -/
def handleGetCard (b : Backend) (args : JObj) : Except String JValue :=
  match asString (getArg args "cardId") with
  | none => .error "missing cardId"
  | some cardID => (Client.GetCard b cardID).map cardToJson

/-- `handleCreateCard`: optional description (default empty), optional
position (default the Go zero 0, later replaced by 65535 in
`Client.CreateCard`), optional `dueDate` string that must parse as RFC3339
when present. -/
def handleCreateCard (b : Backend) (parseTime : String → Option String)
    (args : JObj) : Except String JValue :=
  match asString (getArg args "name") with
  | none => .error "missing name"
  | some name =>
    match asString (getArg args "listId") with
    | none => .error "missing listId"
    | some listID =>
      let description := (asString (getArg args "description")).getD ""
      let position := (asNum (getArg args "position")).getD 0
      match asString (getArg args "dueDate") with
      | some s =>
        match parseTime s with
        | none => .error ("invalid dueDate format: " ++ s)
        | some d =>
          let req : CreateCardRequest :=
            { name := name, listId := listID, description := description,
              position := position, dueDate := some d }
          (Client.CreateCard b req).map cardToJson
      | none =>
        let req : CreateCardRequest :=
          { name := name, listId := listID, description := description,
            position := position, dueDate := none }
        (Client.CreateCard b req).map cardToJson

/-- `handleUpdateCard`: every updatable field is optional; a field that is
absent or fails its type assertion leaves the corresponding request pointer
nil; a present `dueDate` string that fails to parse aborts the call. -/
def handleUpdateCard (b : Backend) (parseTime : String → Option String)
    (args : JObj) : Except String JValue :=
  match asString (getArg args "cardId") with
  | none => .error "missing cardId"
  | some cardID =>
    match asString (getArg args "dueDate") with
    | some s =>
      match parseTime s with
      | none => .error ("invalid dueDate format: " ++ s)
      | some d =>
        let req : UpdateCardRequest :=
          { name := asString (getArg args "name"),
            description := asString (getArg args "description"),
            listId := asString (getArg args "listId"),
            position := asNum (getArg args "position"),
            dueDate := some d }
        (Client.UpdateCard b cardID req).map cardToJson
    | none =>
      let req : UpdateCardRequest :=
        { name := asString (getArg args "name"),
          description := asString (getArg args "description"),
          listId := asString (getArg args "listId"),
          position := asNum (getArg args "position"),
          dueDate := none }
      (Client.UpdateCard b cardID req).map cardToJson

/-- `handleDeleteCard`. -/
def handleDeleteCard (b : Backend) (args : JObj) : Except String JValue :=
  match asString (getArg args "cardId") with
  | none => .error "missing cardId"
  | some cardID => (Client.DeleteCard b cardID).map (fun _ => successJson)

/-- `handleMoveCard`: `position` defaults to 0.0 when absent or not a
`float64`, and is always passed to `Client.MoveCard`. -/
def handleMoveCard (b : Backend) (args : JObj) : Except String JValue :=
  match asString (getArg args "cardId") with
  | none => .error "missing cardId"
  | some cardID =>
    match asString (getArg args "listId") with
    | none => .error "missing listId"
    | some listID =>
      let position := (asNum (getArg args "position")).getD 0
      (Client.MoveCard b cardID listID position).map cardToJson

/-- `handleGetTasks`. -/
def handleGetTasks (b : Backend) (args : JObj) : Except String JValue :=
  match asString (getArg args "cardId") with
  | none => .error "missing cardId"
  | some cardID => (Client.GetTasks b cardID).map (fun ts => jarr (ts.map ptaskToJson))

/-- `handleCreateTask`: optional position defaulting to the Go zero 0,
later replaced by 65535 in `Client.CreateTask`. -/
def handleCreateTask (b : Backend) (args : JObj) : Except String JValue :=
  match asString (getArg args "name") with
  | none => .error "missing name"
  | some name =>
    match asString (getArg args "cardId") with
    | none => .error "missing cardId"
    | some cardID =>
      let req : CreateTaskRequest :=
        { name := name, cardId := cardID, position := (asNum (getArg args "position")).getD 0 }
      (Client.CreateTask b req).map ptaskToJson

/-- `handleUpdateTask`. -/
def handleUpdateTask (b : Backend) (args : JObj) : Except String JValue :=
  match asString (getArg args "taskId") with
  | none => .error "missing taskId"
  | some taskID =>
    let req : UpdateTaskRequest :=
      { name := asString (getArg args "name"),
        isCompleted := asBool (getArg args "isCompleted"),
        position := asNum (getArg args "position") }
    (Client.UpdateTask b taskID req).map ptaskToJson

/-- `handleDeleteTask`. -/
def handleDeleteTask (b : Backend) (args : JObj) : Except String JValue :=
  match asString (getArg args "taskId") with
  | none => .error "missing taskId"
  | some taskID => (Client.DeleteTask b taskID).map (fun _ => successJson)

/-- `handleGetComments`. -/
def handleGetComments (b : Backend) (args : JObj) : Except String JValue :=
  match asString (getArg args "cardId") with
  | none => .error "missing cardId"
  | some cardID => (Client.GetComments b cardID).map (fun cs => jarr (cs.map commentToJson))

/-- `handleCreateComment`. -/
def handleCreateComment (b : Backend) (args : JObj) : Except String JValue :=
  match asString (getArg args "text") with
  | none => .error "missing text"
  | some text =>
    match asString (getArg args "cardId") with
    | none => .error "missing cardId"
    | some cardID =>
      (Client.CreateComment b { text := text, cardId := cardID }).map commentToJson

/-- `handleDeleteComment`. -/
def handleDeleteComment (b : Backend) (args : JObj) : Except String JValue :=
  match asString (getArg args "commentId") with
  | none => .error "missing commentId"
  | some commentID => (Client.DeleteComment b commentID).map (fun _ => successJson)

/-- `handleGetStopwatch`. -/
def handleGetStopwatch (b : Backend) (args : JObj) : Except String JValue :=
  match asString (getArg args "cardId") with
  | none => .error "missing cardId"
  | some cardID => (Client.GetStopwatch b cardID).map stopwatchToJson

/-- `handleStartStopwatch`. -/
def handleStartStopwatch (b : Backend) (args : JObj) : Except String JValue :=
  match asString (getArg args "cardId") with
  | none => .error "missing cardId"
  | some cardID => (Client.StartStopwatch b cardID).map stopwatchToJson

/-- `handleStopStopwatch`. -/
def handleStopStopwatch (b : Backend) (args : JObj) : Except String JValue :=
  match asString (getArg args "cardId") with
  | none => .error "missing cardId"
  | some cardID => (Client.StopStopwatch b cardID).map stopwatchToJson

/-- `handleResetStopwatch`. -/
def handleResetStopwatch (b : Backend) (args : JObj) : Except String JValue :=
  match asString (getArg args "cardId") with
  | none => .error "missing cardId"
  | some cardID => (Client.ResetStopwatch b cardID).map stopwatchToJson

/-- `callTool`: the dispatch switch over the 26 registered tool names. -/
def callTool (b : Backend) (parseTime : String → Option String)
    (name : String) (args : JObj) : Except String JValue :=
  if name = "get_projects" then handleGetProjects b
  else if name = "get_project" then handleGetProject b args
  else if name = "create_project" then handleCreateProject b args
  else if name = "get_boards" then handleGetBoards b args
  else if name = "get_board" then handleGetBoard b args
  else if name = "create_board" then handleCreateBoard b args
  else if name = "get_lists" then handleGetLists b args
  else if name = "get_list" then handleGetList b args
  else if name = "create_list" then handleCreateList b args
  else if name = "get_cards" then handleGetCards b args
  else if name = "get_card" then handleGetCard b args
  else if name = "create_card" then handleCreateCard b parseTime args
  else if name = "update_card" then handleUpdateCard b parseTime args
  else if name = "delete_card" then handleDeleteCard b args
  else if name = "move_card" then handleMoveCard b args
  else if name = "get_tasks" then handleGetTasks b args
  else if name = "create_task" then handleCreateTask b args
  else if name = "update_task" then handleUpdateTask b args
  else if name = "delete_task" then handleDeleteTask b args
  else if name = "get_comments" then handleGetComments b args
  else if name = "create_comment" then handleCreateComment b args
  else if name = "delete_comment" then handleDeleteComment b args
  else if name = "get_stopwatch" then handleGetStopwatch b args
  else if name = "start_stopwatch" then handleStartStopwatch b args
  else if name = "stop_stopwatch" then handleStopStopwatch b args
  else if name = "reset_stopwatch" then handleResetStopwatch b args
  else .error ("unknown tool: " ++ name)

/-! Dispatcher and transports from `internal/mcp/server.go`.  A response map
is modelled as a `Response` record whose `result` and `error` fields are
`Option`s: `none` means the key is absent from the emitted JSON object
(`some jnull` is a present `null`, as the HTTP acknowledgement of
`notifications/initialized` emits).  The request identifier is read as Go
does, `id, _ := request["id"]`, so an absent id becomes `null`. -/

/-- the error member of an error envelope. -/
structure ErrorObject where
  code : Int
  message : String
deriving DecidableEq

/-- one response envelope, before JSON encoding. -/
structure Response where
  result : Option JValue
  error : Option ErrorObject
  id : JValue

/-- the 26 registered tool names, in catalog order (`getTools`); the
descriptions and input schemas of the catalog are carried verbatim to
`tools/list` and read by nothing else, so only the names are modelled. -/
def toolNames : List String :=
  ["get_projects", "get_project", "create_project",
   "get_boards", "get_board", "create_board",
   "get_lists", "get_list", "create_list",
   "get_cards", "get_card", "create_card", "update_card", "delete_card", "move_card",
   "get_tasks", "create_task", "update_task", "delete_task",
   "get_comments", "create_comment", "delete_comment",
   "get_stopwatch", "start_stopwatch", "stop_stopwatch", "reset_stopwatch"]

/-- `buildInitializeResponse`. -/
def buildInitializeResponse (id : JValue) : Response :=
  { result := some (jobj
      [("protocolVersion", jstr "2024-11-05"),
       ("capabilities", jobj [("tools", jobj [])]),
       ("serverInfo", jobj [("name", jstr "planka-mcp"), ("version", jstr "1.0.0")])]),
    error := none, id := id }

/-- `buildToolsListResponse`. -/
def buildToolsListResponse (id : JValue) : Response :=
  { result := some (jobj [("tools", jarr (toolNames.map (fun n => jobj [("name", jstr n)])))]),
    error := none, id := id }

/-- `buildErrorResponse`: every error envelope the server builds carries the
single fixed code -32603. -/
def buildErrorResponse (id : JValue) (message : String) : Response :=
  { result := none, error := some { code := -32603, message := message }, id := id }

/-- `buildToolsCallResponse`: missing params or name fail the call; a tool
result is wrapped as a one-element `content` array of type `text` (the Go
`text` member holds the serialized result; we carry the object it decodes
to). -/
def buildToolsCallResponse (b : Backend) (parseTime : String → Option String)
    (request : JObj) (id : JValue) : Except String Response :=
  match asObj (getArg request "params") with
  | none => .error "missing params in request"
  | some params =>
    match asString (getArg params "name") with
    | none => .error "missing name in params"
    | some toolName =>
      let arguments := (asObj (getArg params "arguments")).getD []
      match callTool b parseTime toolName arguments with
      | .error e => .error ("tool call failed: " ++ e)
      | .ok result =>
        .ok { result := some (jobj
                [("content", jarr [jobj [("type", jstr "text"), ("text", result)]])]),
              error := none, id := id }

/-- `Server.handleMCPRequest`, the shared dispatcher: `tools/list`,
`tools/call`, or an `unknown method` failure handed to the transport
layer. -/
def handleMCPRequest (b : Backend) (parseTime : String → Option String)
    (request : JObj) : Except String Response :=
  match asString (getArg request "method") with
  | none => .error "missing method in request"
  | some method =>
    let id := (getArg request "id").getD jnull
    if method = "tools/list" then .ok (buildToolsListResponse id)
    else if method = "tools/call" then buildToolsCallResponse b parseTime request id
    else .error ("unknown method: " ++ method)

/-- one iteration of the `StartStdio` read loop on a decoded request: the
state is the `initialized` flag, the result is the new flag and the list of
envelopes written to stdout, and an `Except.error` is the loop returning an
error, which tears down the whole connection.  `initialize` always answers
and sets the flag; `notifications/initialized` is skipped with no reply;
any other method before initialization kills the connection; afterwards a
dispatcher failure is folded into an error envelope and the loop
continues. -/
def stdioStep (b : Backend) (parseTime : String → Option String)
    (initialized : Bool) (request : JObj) : Except String (Bool × List Response) :=
  let method := (asString (getArg request "method")).getD ""
  let id := (getArg request "id").getD jnull
  if method = "initialize" then .ok (true, [buildInitializeResponse id])
  else if method = "notifications/initialized" then .ok (initialized, [])
  else if initialized = false then .error "received request before initialization"
  else
    match handleMCPRequest b parseTime request with
    | .ok response => .ok (initialized, [response])
    | .error e => .ok (initialized, [buildErrorResponse id e])

/-- `httpServer.handleMCPRequest` on a decoded request for one session: the
state is the session's `initialized` flag; `initialize` marks the session
and answers; `notifications/initialized` answers with a bare null result
envelope; any other method first auto-promotes an uninitialized session,
then dispatches, dispatcher failures becoming error envelopes delivered
with HTTP 200. -/
def httpHandle (b : Backend) (parseTime : String → Option String)
    (initialized : Bool) (request : JObj) : Bool × Response :=
  let method := (asString (getArg request "method")).getD ""
  let id := (getArg request "id").getD jnull
  if method = "initialize" then (true, buildInitializeResponse id)
  else if method = "notifications/initialized" then
    (initialized, { result := some jnull, error := none, id := id })
  else
    let initialized' := if initialized = false then true else initialized
    match handleMCPRequest b parseTime request with
    | .ok response => (initialized', response)
    | .error e => (initialized', buildErrorResponse id e)

/-! Specification-side definitions, written from the spec's words, to be
compared with the code-derived functions above. -/

/-- Spec-side enumeration of the boards (in order) whose list bundle
contains the wanted list id; a board whose list fetch fails contributes
nothing, as the code skips it. -/
def boardCandidates (b : Backend) (listID : String) (boards : List Board) : List String :=
  boards.flatMap (fun board =>
    match Client.GetLists b board.id with
    | .error _ => []
    | .ok lists => if lists.any (fun l => l.id = listID) then [board.id] else [])

/-- Spec-side enumeration of the fallback search over whole projects, built
from `boardCandidates`; a project whose board fetch fails contributes
nothing, as the code skips it. -/
def matchCandidates (b : Backend) (listID : String) (projects : List Project) : List String :=
  projects.flatMap (fun project =>
    match Client.GetBoards b project.id with
    | .error _ => []
    | .ok boards => boardCandidates b listID boards)

/-- Spec-side envelope invariant: exactly one of the result and error keys
is present, and the identifier echoes the originating request's. -/
def wellFormedResponse (r : Response) (requestId : JValue) : Prop :=
  ((r.result.isSome ∧ r.error.isNone) ∨ (r.result.isNone ∧ r.error.isSome)) ∧
  r.id = requestId

/-! Concrete fixtures for witnesses and counterexamples. -/

/-- an included bundle with every kind absent. -/
def emptyIncluded : Included :=
  { boards := none, lists := none, cards := none, tasks := none, comments := none }

/-- a backend whose every endpoint fails; fixtures override the fields a
scenario needs. -/
def stubBackend : Backend :=
  { getProjectsEp := .error "stub"
    getProjectEp := fun _ => .error "stub"
    getBoardEp := fun _ => .error "stub"
    getListEp := fun _ => .error "stub"
    getCardEp := fun _ => .error "stub"
    getCommentsEp := fun _ => .error "stub"
    getStopwatchEp := fun _ => .error "stub"
    postProjectEp := fun _ => .error "stub"
    postBoardEp := fun _ _ => .error "stub"
    postListEp := fun _ _ => .error "stub"
    postCardEp := fun _ _ => .error "stub"
    postTaskEp := fun _ _ => .error "stub"
    postCommentEp := fun _ => .error "stub"
    postStopwatchStartEp := fun _ => .error "stub"
    postStopwatchStopEp := fun _ => .error "stub"
    postStopwatchResetEp := fun _ => .error "stub"
    patchCardEp := fun _ _ => .error "stub"
    patchTaskEp := fun _ _ => .error "stub"
    deleteProjectEp := fun _ => .error "stub"
    deleteBoardEp := fun _ => .error "stub"
    deleteListEp := fun _ => .error "stub"
    deleteCardEp := fun _ => .error "stub"
    deleteTaskEp := fun _ => .error "stub"
    deleteCommentEp := fun _ => .error "stub" }

/-- identity stand-in for `time.Parse` followed by formatting: accepts every
string. -/
def idParse : String → Option String := fun s => some s

/-- sample project P1. -/
def proj1 : Project := { id := "P1", name := "Main", description := "" }

/-- sample board B1 of P1. -/
def board1 : Board := { id := "B1", name := "Kanban", description := "", projectId := "P1" }

/-- sample list L1 of B1. -/
def list1 : BList := { id := "L1", name := "Backlog", boardId := "B1", position := 65535 }

/-- sample list L2 of B1. -/
def list2 : BList := { id := "L2", name := "Done", boardId := "B1", position := 131070 }

/-- sample card in L1. -/
def card1 : Card :=
  { id := "C1", name := "Write spec", description := "", listId := "L1",
    position := 65535, dueDate := none }

/-- sample card in L2. -/
def card2 : Card :=
  { id := "C2", name := "Ship it", description := "", listId := "L2",
    position := 65535, dueDate := none }

/-- fixture for the get_cards fallback: the direct list endpoint always
fails (an HTML body), one project holding one board whose bundles carry
both lists and the cards of both. -/
def fallbackBackend : Backend :=
  { stubBackend with
    getListEp := fun _ => .error "received HTML instead of JSON"
    getProjectsEp := .ok [proj1]
    getProjectEp := fun pid =>
      if pid = "P1" then .ok (proj1, { emptyIncluded with boards := some [board1] })
      else .error "API error (status 404)"
    getBoardEp := fun bid =>
      if bid = "B1" then
        .ok (board1,
          { emptyIncluded with
            lists := some [list1, list2]
            cards := some [card1, card2] })
      else .error "API error (status 404)" }

/-! Helper lemmas on object lookup. -/

/-- lookup passes over a prefix none of whose keys match. -/
theorem getArg_skip (o2 : JObj) (key : String) :
    ∀ o1 : JObj, (∀ kv ∈ o1, kv.fst ≠ key) → getArg (o1 ++ o2) key = getArg o2 key := by
  intro o1
  induction o1 with
  | nil => intro _; rfl
  | cons kv rest ih =>
    intro h
    have hkv : ¬ (kv.fst = key) := h kv (List.mem_cons_self kv rest)
    rw [List.cons_append]
    unfold getArg
    rw [List.find?_cons_of_neg]
    · exact ih (fun x hx => h x (List.mem_cons_of_mem kv hx))
    · simpa using hkv

/-- the body of `Client.CreateCard` always carries its position argument
under the `position` key. -/
theorem cardCreateBody_position (n : String) (p : Rat) (d : String) (dd : Option String) :
    getArg (cardCreateBody n p d dd) "position" = some (jnum p) := by
  unfold cardCreateBody
  rw [getArg_skip]
  · rfl
  · intro kv hkv
    rcases List.mem_append.mp hkv with h1 | h2
    · split at h1
      · simp at h1
        simp [h1]
      · simp at h1
    · split at h2
      · simp at h2
        simp [h2]
      · simp at h2

/-- the body of `Client.CreateBoard` always carries its position argument
under the `position` key. -/
theorem boardCreateBody_position (n : String) (p : Rat) (d : String) :
    getArg (boardCreateBody n p d) "position" = some (jnum p) := by
  unfold boardCreateBody
  rw [getArg_skip]
  · rfl
  · intro kv hkv
    split at hkv
    · simp at hkv
      simp [hkv]
    · simp at hkv

/-- C7: for every parent-children resolution reading an included bundle
(boards of a project, lists of a board, tasks of a card, cards of a list),
an absent kind in the bundle yields the empty collection and never an
error. -/
theorem included_bundle_absent_empty (b : Backend) (projectID boardID cardID listID : String) :
    (∀ p inc, b.getProjectEp projectID = .ok (p, inc) → inc.boards = none →
       Client.GetBoards b projectID = .ok []) ∧
    (∀ bd inc, b.getBoardEp boardID = .ok (bd, inc) → inc.lists = none →
       Client.GetLists b boardID = .ok []) ∧
    (∀ c inc, b.getCardEp cardID = .ok (c, inc) → inc.tasks = none →
       Client.GetTasks b cardID = .ok []) ∧
    (∀ item inc1 bd inc, b.getListEp listID = .ok (item, inc1) →
       item.boardId ≠ "" →
       b.getBoardEp item.boardId = .ok (bd, inc) → inc.cards = none →
       Client.GetCards b listID = .ok []) := by
  refine ⟨?_, ?_, ?_, ?_⟩
  · intro p inc h hb
    simp [Client.GetBoards, h, hb]
  · intro bd inc h hl
    simp [Client.GetLists, h, hl]
  · intro c inc h ht
    simp [Client.GetTasks, h, ht]
  · intro item inc1 bd inc h hne hb hc
    simp [Client.GetCards, h, hne, cardsOfBoard, hb, hc]

/-- C7 witness: a backend whose bundles are all missing their kinds. -/
def absentBackend : Backend :=
  { stubBackend with
    getProjectEp := fun _ => .ok (proj1, emptyIncluded)
    getBoardEp := fun _ => .ok (board1, emptyIncluded)
    getCardEp := fun _ => .ok (card1, emptyIncluded)
    getListEp := fun _ => .ok (list1, emptyIncluded) }

/-- C7 at a concrete backend with every bundle kind absent. -/
theorem included_bundle_absent_empty_w :
    Client.GetBoards absentBackend "P1" = .ok [] ∧
    Client.GetLists absentBackend "B1" = .ok [] ∧
    Client.GetTasks absentBackend "C1" = .ok [] ∧
    Client.GetCards absentBackend "L1" = .ok [] := by
  obtain ⟨h1, h2, h3, h4⟩ := included_bundle_absent_empty absentBackend "P1" "B1" "C1" "L1"
  exact ⟨h1 proj1 emptyIncluded rfl rfl,
         h2 board1 emptyIncluded rfl rfl,
         h3 card1 emptyIncluded rfl rfl,
         h4 list1 emptyIncluded board1 emptyIncluded rfl (by decide) rfl rfl⟩

/-- C8: a create_list call without a position argument sends the sentinel
default 65535 as the outbound position, fails only if the backing call
fails, and its result text decodes to an object carrying the supplied name
whenever the backing service echoes the created list. -/
theorem createList_missing_position_default (b : Backend) (args : JObj) (n boardID : String)
    (hn : asString (getArg args "name") = some n)
    (hb : asString (getArg args "boardId") = some boardID)
    (hp : getArg args "position" = none) :
    handleCreateList b args =
      Except.map blistToJson (b.postListEp boardID [("name", jstr n), ("position", jnum 65535)]) ∧
    ∀ l, b.postListEp boardID [("name", jstr n), ("position", jnum 65535)] = .ok l →
      l.name = n →
      handleCreateList b args = .ok (blistToJson l) ∧
      jlookup (blistToJson l) "name" = some (jstr n) := by
  have heq : handleCreateList b args =
      Except.map blistToJson (b.postListEp boardID [("name", jstr n), ("position", jnum 65535)]) := by
    simp [handleCreateList, hn, hb, hp, asNum, Client.CreateList]
  refine ⟨heq, ?_⟩
  intro l hl hname
  have hj : jlookup (blistToJson l) "name" = some (jstr l.name) := rfl
  rw [hname] at hj
  rw [heq, hl]
  exact ⟨rfl, hj⟩

/-- C8 witness fixture: a backend whose list-creation endpoint succeeds with
the sample list named Backlog. -/
def createListOkBackend : Backend :=
  { stubBackend with postListEp := fun _ _ => .ok list1 }

/-- C8 at the spec's concrete scenario: create_list with name Backlog and no
position. -/
theorem createList_missing_position_default_w :
    handleCreateList createListOkBackend
        [("name", jstr "Backlog"), ("boardId", jstr "B1")] = .ok (blistToJson list1) ∧
    jlookup (blistToJson list1) "name" = some (jstr "Backlog") := by
  have h := createList_missing_position_default createListOkBackend
    [("name", jstr "Backlog"), ("boardId", jstr "B1")] "Backlog" "B1" rfl rfl rfl
  exact h.2 list1 rfl rfl

/-- C10: in every create_list, create_card, create_task and create_board
call in which the caller supplies position 0 (an argument create_board in
fact never reads), the outbound create body carries the sentinel position
65535 instead of 0, so position 0 is unreachable through the public
interface. -/
theorem create_position_zero_sentinel (b : Backend) (parseTime : String → Option String) :
    (∀ args n boardID, asString (getArg args "name") = some n →
       asString (getArg args "boardId") = some boardID →
       getArg args "position" = some (jnum 0) →
       handleCreateList b args =
         Except.map blistToJson
           (b.postListEp boardID [("name", jstr n), ("position", jnum 65535)])) ∧
    (∀ args n listID, asString (getArg args "name") = some n →
       asString (getArg args "listId") = some listID →
       getArg args "position" = some (jnum 0) →
       (getArg args "dueDate" = none ∨
         ∃ s d, getArg args "dueDate" = some (jstr s) ∧ parseTime s = some d) →
       ∃ body, getArg body "position" = some (jnum 65535) ∧
         handleCreateCard b parseTime args = Except.map cardToJson (b.postCardEp listID body)) ∧
    (∀ args n cardID, asString (getArg args "name") = some n →
       asString (getArg args "cardId") = some cardID →
       getArg args "position" = some (jnum 0) →
       handleCreateTask b args =
         Except.map ptaskToJson
           (b.postTaskEp cardID [("name", jstr n), ("position", jnum 65535)])) ∧
    (∀ args n projectID, asString (getArg args "name") = some n →
       asString (getArg args "projectId") = some projectID →
       ∃ body, getArg body "position" = some (jnum 65535) ∧
         handleCreateBoard b args = Except.map boardToJson (b.postBoardEp projectID body)) := by
  refine ⟨?_, ?_, ?_, ?_⟩
  · intro args n boardID hn hb hp
    simp [handleCreateList, hn, hb, hp, asNum, Client.CreateList]
  · intro args n listID hn hl hp hdd
    rcases hdd with hdd | ⟨s, d, hdd, hparse⟩
    · refine ⟨cardCreateBody n 65535 ((asString (getArg args "description")).getD "") none,
        cardCreateBody_position n 65535 _ none, ?_⟩
      simp [handleCreateCard, hn, hl, hp, hdd, asNum, Client.CreateCard]
      rfl
    · refine ⟨cardCreateBody n 65535 ((asString (getArg args "description")).getD "") (some d),
        cardCreateBody_position n 65535 _ (some d), ?_⟩
      simp [handleCreateCard, hn, hl, hp, hdd, hparse, asNum, Client.CreateCard]
      simp [asString, hparse]
  · intro args n cardID hn hc hp
    simp [handleCreateTask, hn, hc, hp, asNum, Client.CreateTask]
  · intro args n projectID hn hpid
    refine ⟨boardCreateBody n 65535 ((asString (getArg args "description")).getD ""),
      boardCreateBody_position n 65535 _, ?_⟩
    simp [handleCreateBoard, hn, hpid, Client.CreateBoard]

/-- C10 witness fixture: a backend whose four create endpoints succeed. -/
def createOkBackend : Backend :=
  { stubBackend with
    postListEp := fun _ _ => .ok list1
    postCardEp := fun _ _ => .ok card1
    postTaskEp := fun _ _ =>
      .ok { id := "T1", name := "step", cardId := "C1", position := 65535, isCompleted := false }
    postBoardEp := fun _ _ => .ok board1 }

/-- C10 at concrete calls, each supplying position 0. -/
theorem create_position_zero_sentinel_w :
    handleCreateList createOkBackend
        [("name", jstr "Backlog"), ("boardId", jstr "B1"), ("position", jnum 0)]
      = .ok (blistToJson list1) ∧
    handleCreateCard createOkBackend idParse
        [("name", jstr "todo"), ("listId", jstr "L1"), ("position", jnum 0)]
      = .ok (cardToJson card1) ∧
    handleCreateTask createOkBackend
        [("name", jstr "step"), ("cardId", jstr "C1"), ("position", jnum 0)]
      = .ok (ptaskToJson
          { id := "T1", name := "step", cardId := "C1", position := 65535, isCompleted := false }) ∧
    handleCreateBoard createOkBackend
        [("name", jstr "Kanban"), ("projectId", jstr "P1"), ("position", jnum 0)]
      = .ok (boardToJson board1) := by
  obtain ⟨h1, h2, h3, h4⟩ := create_position_zero_sentinel createOkBackend idParse
  refine ⟨?_, ?_, ?_, ?_⟩
  · rw [h1 [("name", jstr "Backlog"), ("boardId", jstr "B1"), ("position", jnum 0)]
        "Backlog" "B1" rfl rfl rfl]
    rfl
  · obtain ⟨body, _, heq⟩ := h2
      [("name", jstr "todo"), ("listId", jstr "L1"), ("position", jnum 0)]
      "todo" "L1" rfl rfl rfl (Or.inl rfl)
    rw [heq]
    rfl
  · rw [h3 [("name", jstr "step"), ("cardId", jstr "C1"), ("position", jnum 0)]
        "step" "C1" rfl rfl rfl]
    rfl
  · obtain ⟨body, _, heq⟩ := h4
      [("name", jstr "Kanban"), ("projectId", jstr "P1"), ("position", jnum 0)]
      "Kanban" "P1" rfl rfl
    rw [heq]
    rfl

/-- the inner loop of the fallback search returns the first candidate board
with a non-empty id, or the empty-string sentinel. -/
theorem searchBoards_eq_candidates (b : Backend) (listID : String) :
    ∀ boards : List Board,
      searchBoards b listID boards =
        ((boardCandidates b listID boards).filter (fun s => s ≠ "")).headD "" := by
  intro boards
  induction boards with
  | nil => rfl
  | cons board rest ih =>
    unfold searchBoards boardCandidates
    rw [List.flatMap_cons]
    cases hgl : Client.GetLists b board.id with
    | error e =>
      simpa [boardCandidates] using ih
    | ok lists =>
      cases hany : lists.any (fun l => l.id = listID) with
      | false =>
        simpa [hany, boardCandidates] using ih
      | true =>
        by_cases hid : board.id = ""
        · simpa [hany, hid, boardCandidates] using ih
        · simp [hany, hid]

/-- the outer loop of the fallback search returns the first candidate board
with a non-empty id over all projects, or the empty-string sentinel. -/
theorem searchProjects_eq_candidates (b : Backend) (listID : String) :
    ∀ projects : List Project,
      searchProjects b listID projects =
        ((matchCandidates b listID projects).filter (fun s => s ≠ "")).headD "" := by
  intro projects
  induction projects with
  | nil => rfl
  | cons project rest ih =>
    unfold searchProjects matchCandidates
    rw [List.flatMap_cons]
    cases hgb : Client.GetBoards b project.id with
    | error e =>
      simpa [matchCandidates] using ih
    | ok boards =>
      simp only []
      rw [searchBoards_eq_candidates b listID boards, List.filter_append]
      cases hbc : (boardCandidates b listID boards).filter (fun s => s ≠ "") with
      | nil =>
        simpa [hbc, matchCandidates] using ih
      | cons x xs =>
        have hx : x ≠ "" := by
          have hmem : x ∈ (boardCandidates b listID boards).filter (fun s => s ≠ "") := by
            rw [hbc]; exact List.mem_cons_self x xs
          simpa using (List.mem_filter.mp hmem).2
        simp [hbc, hx]

/-- membership in a filtered card bundle carries the list-id property. -/
theorem cardsOfBoard_mem (b : Backend) (boardID listID : String) :
    ∀ cards, cardsOfBoard b boardID listID = .ok cards →
      ∀ c ∈ cards, c.listId = listID := by
  intro cards h c hc
  unfold cardsOfBoard at h
  cases hgb : b.getBoardEp boardID with
  | error e => simp [hgb] at h
  | ok pair =>
    obtain ⟨bd, inc⟩ := pair
    simp only [hgb] at h
    cases hic : inc.cards with
    | none =>
      simp [hic] at h
      subst h
      simp at hc
    | some allCards =>
      simp [hic] at h
      subst h
      have := List.mem_filter.mp hc
      simpa using this.2

/-- C1: get_cards resolution; the first conjunct is the filter invariant
(every returned card belongs to the requested list), the second and third
settle the fallback path against the spec-side enumeration (no candidate
board with a non-empty id means an empty collection, not an error, and
otherwise the first such board is adopted), and the fourth is the
empty-board-id degenerate case of the direct path. -/
theorem getCards_fallback_filter_spec (b : Backend) (listID : String) :
    (∀ cards, Client.GetCards b listID = .ok cards → ∀ c ∈ cards, c.listId = listID) ∧
    (∀ e projects, b.getListEp listID = .error e → Client.GetProjects b = .ok projects →
       (matchCandidates b listID projects).filter (fun s => s ≠ "") = [] →
       Client.GetCards b listID = .ok []) ∧
    (∀ e projects boardID rest, b.getListEp listID = .error e →
       Client.GetProjects b = .ok projects →
       (matchCandidates b listID projects).filter (fun s => s ≠ "") = boardID :: rest →
       Client.GetCards b listID = cardsOfBoard b boardID listID) ∧
    (∀ item inc, b.getListEp listID = .ok (item, inc) → item.boardId = "" →
       Client.GetCards b listID = .ok []) := by
  refine ⟨?_, ?_, ?_, ?_⟩
  · intro cards h c hc
    unfold Client.GetCards at h
    cases hls : b.getListEp listID with
    | error e =>
      simp only [hls] at h
      cases hp : Client.GetProjects b with
      | error e2 => simp [hp] at h
      | ok projects =>
        simp only [hp] at h
        by_cases hs : searchProjects b listID projects = ""
        · simp [hs] at h
          subst h
          simp at hc
        · simp only [hs, if_neg, reduceIte] at h
          exact cardsOfBoard_mem b _ listID cards h c hc
    | ok pair =>
      obtain ⟨item, inc⟩ := pair
      simp only [hls] at h
      by_cases hb : item.boardId = ""
      · simp [hb] at h
        subst h
        simp at hc
      · simp only [hb, if_neg, reduceIte] at h
        exact cardsOfBoard_mem b _ listID cards h c hc
  · intro e projects hle hp hempty
    have hs : searchProjects b listID projects = "" := by
      rw [searchProjects_eq_candidates, hempty]; rfl
    simp [Client.GetCards, hle, hp, hs]
  · intro e projects boardID rest hle hp hcands
    have hs : searchProjects b listID projects = boardID := by
      rw [searchProjects_eq_candidates, hcands]; rfl
    have hne : boardID ≠ "" := by
      have hmem : boardID ∈ (matchCandidates b listID projects).filter (fun s => s ≠ "") := by
        rw [hcands]; exact List.mem_cons_self boardID rest
      simpa using (List.mem_filter.mp hmem).2
    simp [Client.GetCards, hle, hp, hs, hne]
  · intro item inc hls hb
    simp [Client.GetCards, hls, hb]

/-- C1 at the concrete fallback fixture: the direct lookup fails, the
enumeration finds board B1 first, and the returned cards are exactly the
cards of list L1. -/
theorem getCards_fallback_filter_spec_w :
    Client.GetCards fallbackBackend "L1" = cardsOfBoard fallbackBackend "B1" "L1" ∧
    Client.GetCards fallbackBackend "L1" = .ok [card1] := by
  obtain ⟨h1, h2, h3, h4⟩ := getCards_fallback_filter_spec fallbackBackend "L1"
  have heq := h3 "received HTML instead of JSON" [proj1] "B1" [] rfl rfl (by rfl)
  refine ⟨heq, ?_⟩
  rw [heq]
  rfl

/-- C5: a non-lifecycle procedure on a session still awaiting
initialization kills the whole stdio connection with a protocol violation,
while the HTTP transport auto-promotes the session to ready and answers
exactly as an initialized session would. -/
theorem awaitingInit_transport_asymmetry (b : Backend) (parseTime : String → Option String)
    (request : JObj) (m : String)
    (hm : (asString (getArg request "method")).getD "" = m)
    (h1 : m ≠ "initialize") (h2 : m ≠ "notifications/initialized") :
    stdioStep b parseTime false request = .error "received request before initialization" ∧
    (httpHandle b parseTime false request).fst = true ∧
    (httpHandle b parseTime false request).snd = (httpHandle b parseTime true request).snd := by
  refine ⟨?_, ?_, ?_⟩
  · simp [stdioStep, hm, h1, h2]
  · cases hh : handleMCPRequest b parseTime request with
    | ok r => simp [httpHandle, hm, h1, h2, hh]
    | error e => simp [httpHandle, hm, h1, h2, hh]
  · cases hh : handleMCPRequest b parseTime request with
    | ok r => simp [httpHandle, hm, h1, h2, hh]
    | error e => simp [httpHandle, hm, h1, h2, hh]

/-- C5 at a concrete tools/list request before initialization. -/
theorem awaitingInit_transport_asymmetry_w :
    stdioStep stubBackend idParse false [("method", jstr "tools/list"), ("id", jnum 1)]
      = .error "received request before initialization" ∧
    (httpHandle stubBackend idParse false [("method", jstr "tools/list"), ("id", jnum 1)]).fst
      = true ∧
    (httpHandle stubBackend idParse false [("method", jstr "tools/list"), ("id", jnum 1)]).snd
      = (httpHandle stubBackend idParse true [("method", jstr "tools/list"), ("id", jnum 1)]).snd :=
  awaitingInit_transport_asymmetry stubBackend idParse
    [("method", jstr "tools/list"), ("id", jnum 1)] "tools/list" rfl
    (by decide) (by decide)

/-- every dispatcher success envelope is well formed and echoes the id. -/
theorem handleMCPRequest_wf (b : Backend) (parseTime : String → Option String)
    (request : JObj) :
    ∀ resp, handleMCPRequest b parseTime request = .ok resp →
      wellFormedResponse resp ((getArg request "id").getD jnull) := by
  intro resp h
  unfold handleMCPRequest at h
  cases hm : asString (getArg request "method") with
  | none => simp [hm] at h
  | some method =>
    simp only [hm] at h
    by_cases h1 : method = "tools/list"
    · simp [h1] at h
      subst h
      simp [wellFormedResponse, buildToolsListResponse]
    · by_cases h2 : method = "tools/call"
      · simp only [h1, h2, if_true, if_false, reduceIte] at h
        unfold buildToolsCallResponse at h
        cases hp : asObj (getArg request "params") with
        | none => simp [hp] at h
        | some params =>
          simp only [hp] at h
          cases hn : asString (getArg params "name") with
          | none => simp [hn] at h
          | some toolName =>
            simp only [hn] at h
            cases hc : callTool b parseTime toolName ((asObj (getArg params "arguments")).getD []) with
            | error e => simp [hc] at h
            | ok result =>
              simp [hc] at h
              subst h
              simp [wellFormedResponse]
      · simp [h1, h2] at h

/-- C6: every envelope the server emits, over either transport, carries
exactly one of the result and error members and echoes the originating
request's identifier (null when the request has none). -/
theorem response_envelope_invariant (b : Backend) (parseTime : String → Option String)
    (st : Bool) (request : JObj) :
    (∀ st' outs, stdioStep b parseTime st request = .ok (st', outs) →
       ∀ r ∈ outs, wellFormedResponse r ((getArg request "id").getD jnull)) ∧
    wellFormedResponse (httpHandle b parseTime st request).snd
      ((getArg request "id").getD jnull) := by
  constructor
  · intro st' outs h r hr
    unfold stdioStep at h
    by_cases h1 : (asString (getArg request "method")).getD "" = "initialize"
    · simp [h1] at h
      rw [← h.2] at hr
      simp at hr
      subst hr
      simp [wellFormedResponse, buildInitializeResponse]
    · by_cases h2 : (asString (getArg request "method")).getD "" = "notifications/initialized"
      · simp [h1, h2] at h
        obtain ⟨-, houts⟩ := h
        subst houts
        simp at hr
      · cases hst : st with
        | false => simp [h1, h2, hst] at h
        | true =>
          simp only [h1, h2, hst, if_false, reduceIte, Bool.true_eq_false] at h
          cases hh : handleMCPRequest b parseTime request with
          | ok resp =>
            simp [hh] at h
            rw [← h.2] at hr
            simp at hr
            subst hr
            exact handleMCPRequest_wf b parseTime request r hh
          | error e =>
            simp [hh] at h
            rw [← h.2] at hr
            simp at hr
            subst hr
            simp [wellFormedResponse, buildErrorResponse]
  · unfold httpHandle
    by_cases h1 : (asString (getArg request "method")).getD "" = "initialize"
    · simp [h1, wellFormedResponse, buildInitializeResponse]
    · by_cases h2 : (asString (getArg request "method")).getD "" = "notifications/initialized"
      · simp [h1, h2, wellFormedResponse]
      · cases hh : handleMCPRequest b parseTime request with
        | ok resp =>
          simp [h1, h2, hh]
          exact handleMCPRequest_wf b parseTime request resp hh
        | error e =>
          simp [h1, h2, hh, wellFormedResponse, buildErrorResponse]

/-- C6 at a concrete unknown-method request with a null id: the stdio error
envelope and the HTTP envelope are both well formed and echo the id. -/
theorem response_envelope_invariant_w :
    wellFormedResponse (buildErrorResponse jnull "unknown method: nope") jnull ∧
    wellFormedResponse
      (httpHandle stubBackend idParse true [("method", jstr "nope")]).snd jnull := by
  obtain ⟨h1, h2⟩ := response_envelope_invariant stubBackend idParse true [("method", jstr "nope")]
  exact ⟨h1 true [buildErrorResponse jnull "unknown method: nope"] rfl _ (by simp), h2⟩

/-- C2 counterexample: an unrecognized method is answered with error code
-32603, the very code the server also uses for an invalid request shape
(`tools/call` without params) and for internal failures, so no distinct
protocol-standard method-not-found class is emitted. -/
theorem errorCode_not_distinct_cex :
    stdioStep stubBackend idParse true [("method", jstr "no.such.method"), ("id", jnum 7)]
      = .ok (true,
          [{ result := none,
             error := some { code := -32603, message := "unknown method: no.such.method" },
             id := jnum 7 }]) ∧
    stdioStep stubBackend idParse true [("method", jstr "tools/call"), ("id", jnum 8)]
      = .ok (true,
          [{ result := none,
             error := some { code := -32603, message := "missing params in request" },
             id := jnum 8 }]) := ⟨rfl, rfl⟩

/-- C2 amended: a request whose method the registry does not recognize is
answered with an error envelope carrying code -32603 — the one fixed code
every error envelope of this server carries — rather than a distinct
method-not-found class. -/
theorem unknownMethod_uniform_error_code (b : Backend) (parseTime : String → Option String)
    (request : JObj) (m : String)
    (hm : asString (getArg request "method") = some m)
    (h1 : m ≠ "initialize") (h2 : m ≠ "notifications/initialized")
    (h3 : m ≠ "tools/list") (h4 : m ≠ "tools/call") :
    stdioStep b parseTime true request =
      .ok (true,
        [buildErrorResponse ((getArg request "id").getD jnull) ("unknown method: " ++ m)]) ∧
    (httpHandle b parseTime true request).snd =
      buildErrorResponse ((getArg request "id").getD jnull) ("unknown method: " ++ m) ∧
    ∀ id msg, (buildErrorResponse id msg).error = some { code := -32603, message := msg } := by
  have hh : handleMCPRequest b parseTime request = .error ("unknown method: " ++ m) := by
    simp [handleMCPRequest, hm, h3, h4]
  refine ⟨?_, ?_, fun id msg => rfl⟩
  · simp [stdioStep, hm, h1, h2, hh]
  · simp [httpHandle, hm, h1, h2, hh]

/-- C2 amended claim at a concrete unrecognized method. -/
theorem unknownMethod_uniform_error_code_w :
    stdioStep stubBackend idParse true [("method", jstr "resources/list"), ("id", jnum 4)]
      = .ok (true, [buildErrorResponse (jnum 4) "unknown method: resources/list"]) ∧
    (httpHandle stubBackend idParse true [("method", jstr "resources/list"), ("id", jnum 4)]).snd
      = buildErrorResponse (jnum 4) "unknown method: resources/list" ∧
    ∀ id msg, (buildErrorResponse id msg).error = some { code := -32603, message := msg } :=
  unknownMethod_uniform_error_code stubBackend idParse
    [("method", jstr "resources/list"), ("id", jnum 4)] "resources/list"
    rfl (by decide) (by decide) (by decide) (by decide)

/-- C9 counterexample: on the stdio transport the initialized notification
is consumed with no reply at all — the emitted output list is empty, so no
bare success acknowledgement reaches the caller. -/
theorem initialized_notification_stdio_silent_cex :
    stdioStep stubBackend idParse false
      [("method", jstr "notifications/initialized"), ("id", jnum 3)] = .ok (false, []) := rfl

/-- C9 amended: in every session state the initialized notification is
accepted and leaves the session state untouched; the HTTP transport answers
with a bare null-result acknowledgement while the stdio transport consumes
it silently, emitting nothing. -/
theorem initialized_notification_behavior (b : Backend) (parseTime : String → Option String)
    (st : Bool) (request : JObj)
    (hm : asString (getArg request "method") = some "notifications/initialized") :
    stdioStep b parseTime st request = .ok (st, []) ∧
    httpHandle b parseTime st request =
      (st, { result := some jnull, error := none,
             id := (getArg request "id").getD jnull }) := by
  constructor
  · simp [stdioStep, hm]
  · simp [httpHandle, hm]

/-- C9 amended claim at a concrete notification in the ready state. -/
theorem initialized_notification_behavior_w :
    stdioStep stubBackend idParse true
        [("method", jstr "notifications/initialized"), ("id", jnum 9)] = .ok (true, []) ∧
    httpHandle stubBackend idParse true
        [("method", jstr "notifications/initialized"), ("id", jnum 9)] =
      (true, { result := some jnull, error := none, id := jnum 9 }) :=
  initialized_notification_behavior stubBackend idParse true
    [("method", jstr "notifications/initialized"), ("id", jnum 9)] rfl

/-- C3 counterexample fixture: a backend whose list-creation endpoint
succeeds exactly when it receives a body carrying the default position
65535, so a successful result proves the upstream call was issued with the
defaulted position. -/
def positionSpyBackend : Backend :=
  { stubBackend with
    postListEp := fun _ body =>
      match getArg body "position" with
      | some (jnum q) => if q = 65535 then .ok list1 else .error "unexpected position"
      | _ => .error "no position in body" }

/-- C3 counterexample: create_list with a position supplied as text is not
rejected with a client-input error; the upstream create call is issued with
the default position 65535 and succeeds. -/
theorem wrongTypedPosition_not_rejected_cex :
    handleCreateList positionSpyBackend
      [("name", jstr "Backlog"), ("boardId", jstr "B1"), ("position", jstr "high")]
      = .ok (blistToJson list1) := rfl


/-! Registry-wide argument typing.  `requiredFields` lists, per tool, the
argument keys its handler demands (in the handler's check order, every one a
string assertion in the Go code), and `optionalFields` lists the optional
keys together with the primitive kind of their Go type assertion.  Both
tables are read off `tools.go`'s handlers. -/

/-- the primitive kind a Go handler asserts an optional argument to. -/
inductive PrimKind where
  | pstr : PrimKind
  | pnum : PrimKind
  | pbool : PrimKind
deriving DecidableEq

/-- the type assertion of the given kind fails on this value. -/
def typeFails : PrimKind → JValue → Prop
  | .pstr, v => asString (some v) = none
  | .pnum, v => asNum (some v) = none
  | .pbool, v => asBool (some v) = none

/-- per tool, the required argument keys in the handler's check order. -/
def requiredFields (name : String) : List String :=
  if name = "get_projects" then []
  else if name = "get_project" then ["projectId"]
  else if name = "create_project" then ["name"]
  else if name = "get_boards" then ["projectId"]
  else if name = "get_board" then ["boardId"]
  else if name = "create_board" then ["name", "projectId"]
  else if name = "get_lists" then ["boardId"]
  else if name = "get_list" then ["listId"]
  else if name = "create_list" then ["name", "boardId"]
  else if name = "get_cards" then ["listId"]
  else if name = "get_card" then ["cardId"]
  else if name = "create_card" then ["name", "listId"]
  else if name = "update_card" then ["cardId"]
  else if name = "delete_card" then ["cardId"]
  else if name = "move_card" then ["cardId", "listId"]
  else if name = "get_tasks" then ["cardId"]
  else if name = "create_task" then ["name", "cardId"]
  else if name = "update_task" then ["taskId"]
  else if name = "delete_task" then ["taskId"]
  else if name = "get_comments" then ["cardId"]
  else if name = "create_comment" then ["text", "cardId"]
  else if name = "delete_comment" then ["commentId"]
  else if name = "get_stopwatch" then ["cardId"]
  else if name = "start_stopwatch" then ["cardId"]
  else if name = "stop_stopwatch" then ["cardId"]
  else if name = "reset_stopwatch" then ["cardId"]
  else []

/-- per tool, the optional argument keys with their asserted kinds. -/
def optionalFields (name : String) : List (String × PrimKind) :=
  if name = "create_project" then [("description", .pstr)]
  else if name = "create_board" then [("description", .pstr)]
  else if name = "create_list" then [("position", .pnum)]
  else if name = "create_card" then
    [("description", .pstr), ("position", .pnum), ("dueDate", .pstr)]
  else if name = "update_card" then
    [("name", .pstr), ("description", .pstr), ("listId", .pstr),
     ("position", .pnum), ("dueDate", .pstr)]
  else if name = "move_card" then [("position", .pnum)]
  else if name = "create_task" then [("position", .pnum)]
  else if name = "update_task" then
    [("name", .pstr), ("isCompleted", .pbool), ("position", .pnum)]
  else []

/-- the argument map with every pair under the given key removed. -/
def removeArg (args : JObj) (f : String) : JObj :=
  args.filter (fun kv => kv.fst ≠ f)

/-- removing a key makes its lookup fail. -/
theorem getArg_removeArg_self (args : JObj) (f : String) :
    getArg (removeArg args f) f = none := by
  induction args with
  | nil => rfl
  | cons kv rest ih =>
    by_cases h : kv.fst = f
    · simpa [removeArg, List.filter_cons, h] using ih
    · rw [show removeArg (kv :: rest) f = kv :: removeArg rest f from by
        simp [removeArg, List.filter_cons, h]]
      unfold getArg
      rw [List.find?_cons_of_neg _ (by simpa using h)]
      exact ih

/-- removing a key leaves every other lookup unchanged. -/
theorem getArg_removeArg_ne (args : JObj) (f g : String) (hg : g ≠ f) :
    getArg (removeArg args f) g = getArg args g := by
  induction args with
  | nil => rfl
  | cons kv rest ih =>
    by_cases h : kv.fst = f
    · have hkvg : ¬ kv.fst = g := by rw [h]; intro e; exact hg e.symm
      rw [show removeArg (kv :: rest) f = removeArg rest f from by
        simp [removeArg, List.filter_cons, h], ih]
      unfold getArg
      rw [List.find?_cons_of_neg _ (by simpa using hkvg)]
    · rw [show removeArg (kv :: rest) f = kv :: removeArg rest f from by
        simp [removeArg, List.filter_cons, h]]
      by_cases h2 : kv.fst = g
      · unfold getArg
        rw [List.find?_cons_of_pos _ (by simpa using h2),
            List.find?_cons_of_pos _ (by simpa using h2)]
      · unfold getArg
        rw [List.find?_cons_of_neg _ (by simpa using h2),
            List.find?_cons_of_neg _ (by simpa using h2)]
        exact ih

/-- removing an unrelated key preserves the string view of an argument. -/
theorem asString_removeArg_ne (args : JObj) (f g : String) (hg : g ≠ f) :
    asString (getArg args g) = asString (getArg (removeArg args f) g) := by
  rw [getArg_removeArg_ne args f g hg]

/-- removing an unrelated key preserves the numeric view of an argument. -/
theorem asNum_removeArg_ne (args : JObj) (f g : String) (hg : g ≠ f) :
    asNum (getArg args g) = asNum (getArg (removeArg args f) g) := by
  rw [getArg_removeArg_ne args f g hg]

/-- removing an unrelated key preserves the boolean view of an argument. -/
theorem asBool_removeArg_ne (args : JObj) (f g : String) (hg : g ≠ f) :
    asBool (getArg args g) = asBool (getArg (removeArg args f) g) := by
  rw [getArg_removeArg_ne args f g hg]

/-- a wrong-typed argument has the same (failed) string view as a removed
one. -/
theorem asString_removeArg_fail (args : JObj) (f : String) (v : JValue)
    (harg : getArg args f = some v) (hv : asString (some v) = none) :
    asString (getArg args f) = asString (getArg (removeArg args f) f) := by
  rw [harg, getArg_removeArg_self]
  exact hv

/-- a wrong-typed argument has the same (failed) numeric view as a removed
one. -/
theorem asNum_removeArg_fail (args : JObj) (f : String) (v : JValue)
    (harg : getArg args f = some v) (hv : asNum (some v) = none) :
    asNum (getArg args f) = asNum (getArg (removeArg args f) f) := by
  rw [harg, getArg_removeArg_self]
  exact hv

/-- a wrong-typed argument has the same (failed) boolean view as a removed
one. -/
theorem asBool_removeArg_fail (args : JObj) (f : String) (v : JValue)
    (harg : getArg args f = some v) (hv : asBool (some v) = none) :
    asBool (getArg args f) = asBool (getArg (removeArg args f) f) := by
  rw [harg, getArg_removeArg_self]
  exact hv

/-! Each handler reads its arguments only through the typed views above, so
it is a congruence in them. -/

/-- `handleCreateProject` depends only on the typed views of its fields. -/
theorem handleCreateProject_ext (b : Backend) (args args' : JObj)
    (h1 : asString (getArg args "name") = asString (getArg args' "name"))
    (h2 : asString (getArg args "description") = asString (getArg args' "description")) :
    handleCreateProject b args = handleCreateProject b args' := by
  unfold handleCreateProject
  rw [h1, h2]

/-- `handleCreateBoard` depends only on the typed views of its fields. -/
theorem handleCreateBoard_ext (b : Backend) (args args' : JObj)
    (h1 : asString (getArg args "name") = asString (getArg args' "name"))
    (h2 : asString (getArg args "projectId") = asString (getArg args' "projectId"))
    (h3 : asString (getArg args "description") = asString (getArg args' "description")) :
    handleCreateBoard b args = handleCreateBoard b args' := by
  unfold handleCreateBoard
  rw [h1, h2, h3]

/-- `handleCreateList` depends only on the typed views of its fields. -/
theorem handleCreateList_ext (b : Backend) (args args' : JObj)
    (h1 : asString (getArg args "name") = asString (getArg args' "name"))
    (h2 : asString (getArg args "boardId") = asString (getArg args' "boardId"))
    (h3 : asNum (getArg args "position") = asNum (getArg args' "position")) :
    handleCreateList b args = handleCreateList b args' := by
  unfold handleCreateList
  rw [h1, h2, h3]

/-- `handleCreateCard` depends only on the typed views of its fields. -/
theorem handleCreateCard_ext (b : Backend) (parseTime : String → Option String)
    (args args' : JObj)
    (h1 : asString (getArg args "name") = asString (getArg args' "name"))
    (h2 : asString (getArg args "listId") = asString (getArg args' "listId"))
    (h3 : asString (getArg args "description") = asString (getArg args' "description"))
    (h4 : asNum (getArg args "position") = asNum (getArg args' "position"))
    (h5 : asString (getArg args "dueDate") = asString (getArg args' "dueDate")) :
    handleCreateCard b parseTime args = handleCreateCard b parseTime args' := by
  unfold handleCreateCard
  rw [h1, h2, h3, h4, h5]

/-- `handleUpdateCard` depends only on the typed views of its fields. -/
theorem handleUpdateCard_ext (b : Backend) (parseTime : String → Option String)
    (args args' : JObj)
    (h1 : asString (getArg args "cardId") = asString (getArg args' "cardId"))
    (h2 : asString (getArg args "dueDate") = asString (getArg args' "dueDate"))
    (h3 : asString (getArg args "name") = asString (getArg args' "name"))
    (h4 : asString (getArg args "description") = asString (getArg args' "description"))
    (h5 : asString (getArg args "listId") = asString (getArg args' "listId"))
    (h6 : asNum (getArg args "position") = asNum (getArg args' "position")) :
    handleUpdateCard b parseTime args = handleUpdateCard b parseTime args' := by
  unfold handleUpdateCard
  rw [h1, h2, h3, h4, h5, h6]

/-- `handleMoveCard` depends only on the typed views of its fields. -/
theorem handleMoveCard_ext (b : Backend) (args args' : JObj)
    (h1 : asString (getArg args "cardId") = asString (getArg args' "cardId"))
    (h2 : asString (getArg args "listId") = asString (getArg args' "listId"))
    (h3 : asNum (getArg args "position") = asNum (getArg args' "position")) :
    handleMoveCard b args = handleMoveCard b args' := by
  unfold handleMoveCard
  rw [h1, h2, h3]

/-- `handleCreateTask` depends only on the typed views of its fields. -/
theorem handleCreateTask_ext (b : Backend) (args args' : JObj)
    (h1 : asString (getArg args "name") = asString (getArg args' "name"))
    (h2 : asString (getArg args "cardId") = asString (getArg args' "cardId"))
    (h3 : asNum (getArg args "position") = asNum (getArg args' "position")) :
    handleCreateTask b args = handleCreateTask b args' := by
  unfold handleCreateTask
  rw [h1, h2, h3]

/-- `handleUpdateTask` depends only on the typed views of its fields. -/
theorem handleUpdateTask_ext (b : Backend) (args args' : JObj)
    (h1 : asString (getArg args "taskId") = asString (getArg args' "taskId"))
    (h2 : asString (getArg args "name") = asString (getArg args' "name"))
    (h3 : asBool (getArg args "isCompleted") = asBool (getArg args' "isCompleted"))
    (h4 : asNum (getArg args "position") = asNum (getArg args' "position")) :
    handleUpdateTask b args = handleUpdateTask b args' := by
  unfold handleUpdateTask
  rw [h1, h2, h3, h4]

/-- a one-field required check: whatever its name, the first failing field
of a singleton list is that field, and the handler's missing-field outcome
transfers. -/
theorem missingFirstSingle (args : JObj) (g f : String) (e : Except String JValue)
    (hf : List.find? (fun x => (asString (getArg args x)).isNone) [g] = some f)
    (h : asString (getArg args g) = none → e = Except.error ("missing " ++ g)) :
    e = Except.error ("missing " ++ f) := by
  cases hg : asString (getArg args g) with
  | none =>
    rw [List.find?_cons_of_pos _ (by simp [hg])] at hf
    injection hf with hf
    rw [← hf]
    exact h hg
  | some s =>
    rw [List.find?_cons_of_neg _ (by simp [hg])] at hf
    simp at hf

/-- a two-field required check in the handler's order. -/
theorem missingFirstPair (args : JObj) (g1 g2 f : String) (e : Except String JValue)
    (hf : List.find? (fun x => (asString (getArg args x)).isNone) [g1, g2] = some f)
    (h1 : asString (getArg args g1) = none → e = Except.error ("missing " ++ g1))
    (h2 : ∀ s, asString (getArg args g1) = some s → asString (getArg args g2) = none →
       e = Except.error ("missing " ++ g2)) :
    e = Except.error ("missing " ++ f) := by
  cases hg1 : asString (getArg args g1) with
  | none =>
    rw [List.find?_cons_of_pos _ (by simp [hg1])] at hf
    injection hf with hf
    rw [← hf]
    exact h1 hg1
  | some s =>
    rw [List.find?_cons_of_neg _ (by simp [hg1])] at hf
    cases hg2 : asString (getArg args g2) with
    | none =>
      rw [List.find?_cons_of_pos _ (by simp [hg2])] at hf
      injection hf with hf
      rw [← hf]
      exact h2 s hg1 hg2
    | some s2 =>
      rw [List.find?_cons_of_neg _ (by simp [hg2])] at hf
      simp at hf

/-- C3 amended: across the whole registry, a required argument that is
absent or present with the wrong primitive type is rejected (reported as
missing) with the same outcome for every backend — hence before any
upstream call — while an optional argument of the wrong primitive type is
silently treated as exactly as if it were absent; in particular a
non-numeric `position` on create_list is replaced by the default 65535 and
the upstream call proceeds. -/
theorem argument_type_checking (b : Backend) (parseTime : String → Option String) :
    (∀ name args f, name ∈ toolNames →
       List.find? (fun g => (asString (getArg args g)).isNone) (requiredFields name) = some f →
       callTool b parseTime name args = .error ("missing " ++ f)) ∧
    (∀ name args f k v, (f, k) ∈ optionalFields name →
       getArg args f = some v → typeFails k v →
       callTool b parseTime name args = callTool b parseTime name (removeArg args f)) ∧
    (∀ args n boardID v, asString (getArg args "name") = some n →
       asString (getArg args "boardId") = some boardID →
       getArg args "position" = some v → asNum (some v) = none →
       handleCreateList b args =
         Except.map blistToJson
           (b.postListEp boardID [("name", jstr n), ("position", jnum 65535)])) := by
  refine ⟨?_, ?_, ?_⟩
  · intro name args f hmem hf
    simp only [toolNames, List.mem_cons, List.not_mem_nil, or_false] at hmem
    rcases hmem with rfl|rfl|rfl|rfl|rfl|rfl|rfl|rfl|rfl|rfl|rfl|rfl|rfl|
      rfl|rfl|rfl|rfl|rfl|rfl|rfl|rfl|rfl|rfl|rfl|rfl|rfl
    · simp [requiredFields] at hf
    · exact missingFirstSingle args "projectId" f _ (by simpa [requiredFields] using hf)
        (fun hq => by
          show handleGetProject b args = Except.error "missing projectId"
          simp [handleGetProject, hq])
    · exact missingFirstSingle args "name" f _ (by simpa [requiredFields] using hf)
        (fun hq => by
          show handleCreateProject b args = Except.error "missing name"
          simp [handleCreateProject, hq])
    · exact missingFirstSingle args "projectId" f _ (by simpa [requiredFields] using hf)
        (fun hq => by
          show handleGetBoards b args = Except.error "missing projectId"
          simp [handleGetBoards, hq])
    · exact missingFirstSingle args "boardId" f _ (by simpa [requiredFields] using hf)
        (fun hq => by
          show handleGetBoard b args = Except.error "missing boardId"
          simp [handleGetBoard, hq])
    · exact missingFirstPair args "name" "projectId" f _ (by simpa [requiredFields] using hf)
        (fun hq => by
          show handleCreateBoard b args = Except.error "missing name"
          simp [handleCreateBoard, hq])
        (fun s hs hq => by
          show handleCreateBoard b args = Except.error "missing projectId"
          simp [handleCreateBoard, hs, hq])
    · exact missingFirstSingle args "boardId" f _ (by simpa [requiredFields] using hf)
        (fun hq => by
          show handleGetLists b args = Except.error "missing boardId"
          simp [handleGetLists, hq])
    · exact missingFirstSingle args "listId" f _ (by simpa [requiredFields] using hf)
        (fun hq => by
          show handleGetList b args = Except.error "missing listId"
          simp [handleGetList, hq])
    · exact missingFirstPair args "name" "boardId" f _ (by simpa [requiredFields] using hf)
        (fun hq => by
          show handleCreateList b args = Except.error "missing name"
          simp [handleCreateList, hq])
        (fun s hs hq => by
          show handleCreateList b args = Except.error "missing boardId"
          simp [handleCreateList, hs, hq])
    · exact missingFirstSingle args "listId" f _ (by simpa [requiredFields] using hf)
        (fun hq => by
          show handleGetCards b args = Except.error "missing listId"
          simp [handleGetCards, hq])
    · exact missingFirstSingle args "cardId" f _ (by simpa [requiredFields] using hf)
        (fun hq => by
          show handleGetCard b args = Except.error "missing cardId"
          simp [handleGetCard, hq])
    · exact missingFirstPair args "name" "listId" f _ (by simpa [requiredFields] using hf)
        (fun hq => by
          show handleCreateCard b parseTime args = Except.error "missing name"
          simp [handleCreateCard, hq])
        (fun s hs hq => by
          show handleCreateCard b parseTime args = Except.error "missing listId"
          simp [handleCreateCard, hs, hq])
    · exact missingFirstSingle args "cardId" f _ (by simpa [requiredFields] using hf)
        (fun hq => by
          show handleUpdateCard b parseTime args = Except.error "missing cardId"
          simp [handleUpdateCard, hq])
    · exact missingFirstSingle args "cardId" f _ (by simpa [requiredFields] using hf)
        (fun hq => by
          show handleDeleteCard b args = Except.error "missing cardId"
          simp [handleDeleteCard, hq])
    · exact missingFirstPair args "cardId" "listId" f _ (by simpa [requiredFields] using hf)
        (fun hq => by
          show handleMoveCard b args = Except.error "missing cardId"
          simp [handleMoveCard, hq])
        (fun s hs hq => by
          show handleMoveCard b args = Except.error "missing listId"
          simp [handleMoveCard, hs, hq])
    · exact missingFirstSingle args "cardId" f _ (by simpa [requiredFields] using hf)
        (fun hq => by
          show handleGetTasks b args = Except.error "missing cardId"
          simp [handleGetTasks, hq])
    · exact missingFirstPair args "name" "cardId" f _ (by simpa [requiredFields] using hf)
        (fun hq => by
          show handleCreateTask b args = Except.error "missing name"
          simp [handleCreateTask, hq])
        (fun s hs hq => by
          show handleCreateTask b args = Except.error "missing cardId"
          simp [handleCreateTask, hs, hq])
    · exact missingFirstSingle args "taskId" f _ (by simpa [requiredFields] using hf)
        (fun hq => by
          show handleUpdateTask b args = Except.error "missing taskId"
          simp [handleUpdateTask, hq])
    · exact missingFirstSingle args "taskId" f _ (by simpa [requiredFields] using hf)
        (fun hq => by
          show handleDeleteTask b args = Except.error "missing taskId"
          simp [handleDeleteTask, hq])
    · exact missingFirstSingle args "cardId" f _ (by simpa [requiredFields] using hf)
        (fun hq => by
          show handleGetComments b args = Except.error "missing cardId"
          simp [handleGetComments, hq])
    · exact missingFirstPair args "text" "cardId" f _ (by simpa [requiredFields] using hf)
        (fun hq => by
          show handleCreateComment b args = Except.error "missing text"
          simp [handleCreateComment, hq])
        (fun s hs hq => by
          show handleCreateComment b args = Except.error "missing cardId"
          simp [handleCreateComment, hs, hq])
    · exact missingFirstSingle args "commentId" f _ (by simpa [requiredFields] using hf)
        (fun hq => by
          show handleDeleteComment b args = Except.error "missing commentId"
          simp [handleDeleteComment, hq])
    · exact missingFirstSingle args "cardId" f _ (by simpa [requiredFields] using hf)
        (fun hq => by
          show handleGetStopwatch b args = Except.error "missing cardId"
          simp [handleGetStopwatch, hq])
    · exact missingFirstSingle args "cardId" f _ (by simpa [requiredFields] using hf)
        (fun hq => by
          show handleStartStopwatch b args = Except.error "missing cardId"
          simp [handleStartStopwatch, hq])
    · exact missingFirstSingle args "cardId" f _ (by simpa [requiredFields] using hf)
        (fun hq => by
          show handleStopStopwatch b args = Except.error "missing cardId"
          simp [handleStopStopwatch, hq])
    · exact missingFirstSingle args "cardId" f _ (by simpa [requiredFields] using hf)
        (fun hq => by
          show handleResetStopwatch b args = Except.error "missing cardId"
          simp [handleResetStopwatch, hq])
  · intro name args f k v hmem harg hv
    by_cases n1 : name = "create_project"
    · subst n1
      simp [optionalFields, Prod.mk.injEq] at hmem
      obtain ⟨rfl, rfl⟩ := hmem
      show handleCreateProject b args = handleCreateProject b (removeArg args "description")
      exact handleCreateProject_ext b args _
        (asString_removeArg_ne args "description" "name" (by decide))
        (asString_removeArg_fail args "description" v harg hv)
    · by_cases n2 : name = "create_board"
      · subst n2
        simp [optionalFields, Prod.mk.injEq] at hmem
        obtain ⟨rfl, rfl⟩ := hmem
        show handleCreateBoard b args = handleCreateBoard b (removeArg args "description")
        exact handleCreateBoard_ext b args _
          (asString_removeArg_ne args "description" "name" (by decide))
          (asString_removeArg_ne args "description" "projectId" (by decide))
          (asString_removeArg_fail args "description" v harg hv)
      · by_cases n3 : name = "create_list"
        · subst n3
          simp [optionalFields, Prod.mk.injEq] at hmem
          obtain ⟨rfl, rfl⟩ := hmem
          show handleCreateList b args = handleCreateList b (removeArg args "position")
          exact handleCreateList_ext b args _
            (asString_removeArg_ne args "position" "name" (by decide))
            (asString_removeArg_ne args "position" "boardId" (by decide))
            (asNum_removeArg_fail args "position" v harg hv)
        · by_cases n4 : name = "create_card"
          · subst n4
            simp [optionalFields, Prod.mk.injEq] at hmem
            rcases hmem with ⟨rfl, rfl⟩ | ⟨rfl, rfl⟩ | ⟨rfl, rfl⟩
            · show handleCreateCard b parseTime args
                = handleCreateCard b parseTime (removeArg args "description")
              exact handleCreateCard_ext b parseTime args _
                (asString_removeArg_ne args "description" "name" (by decide))
                (asString_removeArg_ne args "description" "listId" (by decide))
                (asString_removeArg_fail args "description" v harg hv)
                (asNum_removeArg_ne args "description" "position" (by decide))
                (asString_removeArg_ne args "description" "dueDate" (by decide))
            · show handleCreateCard b parseTime args
                = handleCreateCard b parseTime (removeArg args "position")
              exact handleCreateCard_ext b parseTime args _
                (asString_removeArg_ne args "position" "name" (by decide))
                (asString_removeArg_ne args "position" "listId" (by decide))
                (asString_removeArg_ne args "position" "description" (by decide))
                (asNum_removeArg_fail args "position" v harg hv)
                (asString_removeArg_ne args "position" "dueDate" (by decide))
            · show handleCreateCard b parseTime args
                = handleCreateCard b parseTime (removeArg args "dueDate")
              exact handleCreateCard_ext b parseTime args _
                (asString_removeArg_ne args "dueDate" "name" (by decide))
                (asString_removeArg_ne args "dueDate" "listId" (by decide))
                (asString_removeArg_ne args "dueDate" "description" (by decide))
                (asNum_removeArg_ne args "dueDate" "position" (by decide))
                (asString_removeArg_fail args "dueDate" v harg hv)
          · by_cases n5 : name = "update_card"
            · subst n5
              simp [optionalFields, Prod.mk.injEq] at hmem
              rcases hmem with ⟨rfl, rfl⟩ | ⟨rfl, rfl⟩ | ⟨rfl, rfl⟩ | ⟨rfl, rfl⟩ | ⟨rfl, rfl⟩
              · show handleUpdateCard b parseTime args
                  = handleUpdateCard b parseTime (removeArg args "name")
                exact handleUpdateCard_ext b parseTime args _
                  (asString_removeArg_ne args "name" "cardId" (by decide))
                  (asString_removeArg_ne args "name" "dueDate" (by decide))
                  (asString_removeArg_fail args "name" v harg hv)
                  (asString_removeArg_ne args "name" "description" (by decide))
                  (asString_removeArg_ne args "name" "listId" (by decide))
                  (asNum_removeArg_ne args "name" "position" (by decide))
              · show handleUpdateCard b parseTime args
                  = handleUpdateCard b parseTime (removeArg args "description")
                exact handleUpdateCard_ext b parseTime args _
                  (asString_removeArg_ne args "description" "cardId" (by decide))
                  (asString_removeArg_ne args "description" "dueDate" (by decide))
                  (asString_removeArg_ne args "description" "name" (by decide))
                  (asString_removeArg_fail args "description" v harg hv)
                  (asString_removeArg_ne args "description" "listId" (by decide))
                  (asNum_removeArg_ne args "description" "position" (by decide))
              · show handleUpdateCard b parseTime args
                  = handleUpdateCard b parseTime (removeArg args "listId")
                exact handleUpdateCard_ext b parseTime args _
                  (asString_removeArg_ne args "listId" "cardId" (by decide))
                  (asString_removeArg_ne args "listId" "dueDate" (by decide))
                  (asString_removeArg_ne args "listId" "name" (by decide))
                  (asString_removeArg_ne args "listId" "description" (by decide))
                  (asString_removeArg_fail args "listId" v harg hv)
                  (asNum_removeArg_ne args "listId" "position" (by decide))
              · show handleUpdateCard b parseTime args
                  = handleUpdateCard b parseTime (removeArg args "position")
                exact handleUpdateCard_ext b parseTime args _
                  (asString_removeArg_ne args "position" "cardId" (by decide))
                  (asString_removeArg_ne args "position" "dueDate" (by decide))
                  (asString_removeArg_ne args "position" "name" (by decide))
                  (asString_removeArg_ne args "position" "description" (by decide))
                  (asString_removeArg_ne args "position" "listId" (by decide))
                  (asNum_removeArg_fail args "position" v harg hv)
              · show handleUpdateCard b parseTime args
                  = handleUpdateCard b parseTime (removeArg args "dueDate")
                exact handleUpdateCard_ext b parseTime args _
                  (asString_removeArg_ne args "dueDate" "cardId" (by decide))
                  (asString_removeArg_fail args "dueDate" v harg hv)
                  (asString_removeArg_ne args "dueDate" "name" (by decide))
                  (asString_removeArg_ne args "dueDate" "description" (by decide))
                  (asString_removeArg_ne args "dueDate" "listId" (by decide))
                  (asNum_removeArg_ne args "dueDate" "position" (by decide))
            · by_cases n6 : name = "move_card"
              · subst n6
                simp [optionalFields, Prod.mk.injEq] at hmem
                obtain ⟨rfl, rfl⟩ := hmem
                show handleMoveCard b args = handleMoveCard b (removeArg args "position")
                exact handleMoveCard_ext b args _
                  (asString_removeArg_ne args "position" "cardId" (by decide))
                  (asString_removeArg_ne args "position" "listId" (by decide))
                  (asNum_removeArg_fail args "position" v harg hv)
              · by_cases n7 : name = "create_task"
                · subst n7
                  simp [optionalFields, Prod.mk.injEq] at hmem
                  obtain ⟨rfl, rfl⟩ := hmem
                  show handleCreateTask b args = handleCreateTask b (removeArg args "position")
                  exact handleCreateTask_ext b args _
                    (asString_removeArg_ne args "position" "name" (by decide))
                    (asString_removeArg_ne args "position" "cardId" (by decide))
                    (asNum_removeArg_fail args "position" v harg hv)
                · by_cases n8 : name = "update_task"
                  · subst n8
                    simp [optionalFields, Prod.mk.injEq] at hmem
                    rcases hmem with ⟨rfl, rfl⟩ | ⟨rfl, rfl⟩ | ⟨rfl, rfl⟩
                    · show handleUpdateTask b args = handleUpdateTask b (removeArg args "name")
                      exact handleUpdateTask_ext b args _
                        (asString_removeArg_ne args "name" "taskId" (by decide))
                        (asString_removeArg_fail args "name" v harg hv)
                        (asBool_removeArg_ne args "name" "isCompleted" (by decide))
                        (asNum_removeArg_ne args "name" "position" (by decide))
                    · show handleUpdateTask b args
                        = handleUpdateTask b (removeArg args "isCompleted")
                      exact handleUpdateTask_ext b args _
                        (asString_removeArg_ne args "isCompleted" "taskId" (by decide))
                        (asString_removeArg_ne args "isCompleted" "name" (by decide))
                        (asBool_removeArg_fail args "isCompleted" v harg hv)
                        (asNum_removeArg_ne args "isCompleted" "position" (by decide))
                    · show handleUpdateTask b args
                        = handleUpdateTask b (removeArg args "position")
                      exact handleUpdateTask_ext b args _
                        (asString_removeArg_ne args "position" "taskId" (by decide))
                        (asString_removeArg_ne args "position" "name" (by decide))
                        (asBool_removeArg_ne args "position" "isCompleted" (by decide))
                        (asNum_removeArg_fail args "position" v harg hv)
                  · simp [optionalFields, n1, n2, n3, n4, n5, n6, n7, n8] at hmem
  · intro args n boardID v hn hb hp hnum
    simp [handleCreateList, hn, hb, hp, hnum, Client.CreateList]

/-- C3 amended claim at concrete calls: a numeric name is rejected as
missing before any upstream call, a text position on create_list is treated
exactly as an absent one, and the call proceeds upstream with the default
65535. -/
theorem argument_type_checking_w :
    callTool stubBackend idParse "create_list" [("name", jnum 5), ("boardId", jstr "B1")]
      = .error "missing name" ∧
    callTool createListOkBackend idParse "create_list"
        [("name", jstr "Backlog"), ("boardId", jstr "B1"), ("position", jstr "high")]
      = callTool createListOkBackend idParse "create_list"
          (removeArg [("name", jstr "Backlog"), ("boardId", jstr "B1"),
            ("position", jstr "high")] "position") ∧
    handleCreateList createListOkBackend
        [("name", jstr "Backlog"), ("boardId", jstr "B1"), ("position", jbool true)]
      = .ok (blistToJson list1) := by
  obtain ⟨ha, -, -⟩ := argument_type_checking stubBackend idParse
  obtain ⟨-, hb', hc⟩ := argument_type_checking createListOkBackend idParse
  refine ⟨?_, ?_, ?_⟩
  · exact ha "create_list" [("name", jnum 5), ("boardId", jstr "B1")] "name"
      (by simp [toolNames]) rfl
  · exact hb' "create_list"
      [("name", jstr "Backlog"), ("boardId", jstr "B1"), ("position", jstr "high")]
      "position" .pnum (jstr "high") (by decide) rfl rfl
  · rw [hc [("name", jstr "Backlog"), ("boardId", jstr "B1"), ("position", jbool true)]
      "Backlog" "B1" (jbool true) rfl rfl rfl rfl]
    rfl

/-- C4 counterexample fixture: a backend whose card-patch endpoint fails
exactly when the patch body carries the key `position` with value 0, so
that failure observes the coerced field in the outbound patch. -/
def moveSpyBackend : Backend :=
  { stubBackend with
    patchCardEp := fun _ body =>
      match getArg body "position" with
      | some (jnum q) => if q = 0 then .error "patch contains position 0" else .ok card1
      | _ => .ok card1 }

/-- C4 counterexample: move_card with the position omitted by the caller
still sends a patch containing `position` coerced to 0, contradicting the
claim that omitted fields are absent from the patch. -/
theorem moveCard_position_coerced_cex :
    handleMoveCard moveSpyBackend [("cardId", jstr "C1"), ("listId", jstr "L2")]
      = .error "patch contains position 0" := rfl

/-- the marshalled update-card patch holds exactly the non-nil fields. -/
theorem updateCardPatch_lookup (req : UpdateCardRequest) :
    getArg (updateCardPatch req) "name" = req.name.map jstr ∧
    getArg (updateCardPatch req) "description" = req.description.map jstr ∧
    getArg (updateCardPatch req) "listId" = req.listId.map jstr ∧
    getArg (updateCardPatch req) "position" = req.position.map jnum ∧
    getArg (updateCardPatch req) "dueDate" = req.dueDate.map jstr := by
  obtain ⟨n, d, l, p, dd⟩ := req
  cases n <;> cases d <;> cases l <;> cases p <;> cases dd <;>
    exact ⟨rfl, rfl, rfl, rfl, rfl⟩

/-- C4 amended: update_card's outbound patch contains exactly the fields
the caller supplied with their declared types — for every call shape: each
key carries the supplied value iff the argument type-asserts (absent or
wrong-typed dueDate leaves the key out, a supplied dueDate that parses
appears with the parsed value, and one that fails to parse aborts the call
before any patch is sent) — while move_card's patch always contains
`listId` and `position`, whether the caller supplied a position or not,
coercing the position to 0 when the caller omits it. -/
theorem patch_field_presence (b : Backend) (parseTime : String → Option String) :
    (∀ args cardID, asString (getArg args "cardId") = some cardID →
       asString (getArg args "dueDate") = none →
       ∃ req, handleUpdateCard b parseTime args =
           Except.map cardToJson (b.patchCardEp cardID (updateCardPatch req)) ∧
         getArg (updateCardPatch req) "name" = (asString (getArg args "name")).map jstr ∧
         getArg (updateCardPatch req) "description"
           = (asString (getArg args "description")).map jstr ∧
         getArg (updateCardPatch req) "listId" = (asString (getArg args "listId")).map jstr ∧
         getArg (updateCardPatch req) "position" = (asNum (getArg args "position")).map jnum ∧
         getArg (updateCardPatch req) "dueDate" = none) ∧
    (∀ args cardID s d, asString (getArg args "cardId") = some cardID →
       asString (getArg args "dueDate") = some s → parseTime s = some d →
       ∃ req, handleUpdateCard b parseTime args =
           Except.map cardToJson (b.patchCardEp cardID (updateCardPatch req)) ∧
         getArg (updateCardPatch req) "name" = (asString (getArg args "name")).map jstr ∧
         getArg (updateCardPatch req) "description"
           = (asString (getArg args "description")).map jstr ∧
         getArg (updateCardPatch req) "listId" = (asString (getArg args "listId")).map jstr ∧
         getArg (updateCardPatch req) "position" = (asNum (getArg args "position")).map jnum ∧
         getArg (updateCardPatch req) "dueDate" = some (jstr d)) ∧
    (∀ args cardID s, asString (getArg args "cardId") = some cardID →
       asString (getArg args "dueDate") = some s → parseTime s = none →
       handleUpdateCard b parseTime args = .error ("invalid dueDate format: " ++ s)) ∧
    (∀ args cardID listID, asString (getArg args "cardId") = some cardID →
       asString (getArg args "listId") = some listID →
       handleMoveCard b args =
         Except.map cardToJson (b.patchCardEp cardID (updateCardPatch
           { name := none, description := none, listId := some listID,
             position := some ((asNum (getArg args "position")).getD 0),
             dueDate := none })) ∧
       getArg (updateCardPatch
           { name := none, description := none, listId := some listID,
             position := some ((asNum (getArg args "position")).getD 0),
             dueDate := none }) "listId" = some (jstr listID) ∧
       getArg (updateCardPatch
           { name := none, description := none, listId := some listID,
             position := some ((asNum (getArg args "position")).getD 0),
             dueDate := none }) "position"
         = some (jnum ((asNum (getArg args "position")).getD 0))) := by
  refine ⟨?_, ?_, ?_, ?_⟩
  · intro args cardID hc hdd
    refine ⟨{ name := asString (getArg args "name"),
              description := asString (getArg args "description"),
              listId := asString (getArg args "listId"),
              position := asNum (getArg args "position"),
              dueDate := none }, ?_, ?_, ?_, ?_, ?_, ?_⟩
    · simp [handleUpdateCard, hc, hdd, Client.UpdateCard]
    · exact (updateCardPatch_lookup _).1
    · exact (updateCardPatch_lookup _).2.1
    · exact (updateCardPatch_lookup _).2.2.1
    · exact (updateCardPatch_lookup _).2.2.2.1
    · exact (updateCardPatch_lookup _).2.2.2.2
  · intro args cardID s d hc hdd hparse
    refine ⟨{ name := asString (getArg args "name"),
              description := asString (getArg args "description"),
              listId := asString (getArg args "listId"),
              position := asNum (getArg args "position"),
              dueDate := some d }, ?_, ?_, ?_, ?_, ?_, ?_⟩
    · simp [handleUpdateCard, hc, hdd, hparse, Client.UpdateCard]
    · exact (updateCardPatch_lookup _).1
    · exact (updateCardPatch_lookup _).2.1
    · exact (updateCardPatch_lookup _).2.2.1
    · exact (updateCardPatch_lookup _).2.2.2.1
    · exact (updateCardPatch_lookup _).2.2.2.2
  · intro args cardID s hc hdd hparse
    simp [handleUpdateCard, hc, hdd, hparse]
  · intro args cardID listID hc hl
    refine ⟨?_, rfl, rfl⟩
    simp [handleMoveCard, hc, hl, Client.MoveCard, Client.UpdateCard]

/-- C4 witness fixture: a backend whose card-patch endpoint succeeds. -/
def updateOkBackend : Backend :=
  { stubBackend with patchCardEp := fun _ _ => .ok card1 }

/-- C4 amended claim at concrete calls covering all four shapes: an update
with only a name, an update with a parsed dueDate, an update with an
unparseable dueDate, and moves with and without a supplied position. -/
theorem patch_field_presence_w :
    handleUpdateCard updateOkBackend idParse
        [("cardId", jstr "C1"), ("name", jstr "New")] = .ok (cardToJson card1) ∧
    handleUpdateCard updateOkBackend idParse
        [("cardId", jstr "C1"), ("dueDate", jstr "2025-06-01T00:00:00Z")]
      = .ok (cardToJson card1) ∧
    handleUpdateCard updateOkBackend (fun _ => none)
        [("cardId", jstr "C1"), ("dueDate", jstr "not-a-date")]
      = .error "invalid dueDate format: not-a-date" ∧
    handleMoveCard updateOkBackend
        [("cardId", jstr "C1"), ("listId", jstr "L2"), ("position", jnum 7)]
      = .ok (cardToJson card1) ∧
    handleMoveCard updateOkBackend [("cardId", jstr "C1"), ("listId", jstr "L2")]
      = .ok (cardToJson card1) := by
  obtain ⟨h1, h2, -, h4⟩ := patch_field_presence updateOkBackend idParse
  obtain ⟨-, -, h3, -⟩ := patch_field_presence updateOkBackend (fun _ => none)
  refine ⟨?_, ?_, ?_, ?_, ?_⟩
  · obtain ⟨req, heq, -, -, -, -, -⟩ :=
      h1 [("cardId", jstr "C1"), ("name", jstr "New")] "C1" rfl rfl
    rw [heq]
    rfl
  · obtain ⟨req, heq, -, -, -, -, -⟩ :=
      h2 [("cardId", jstr "C1"), ("dueDate", jstr "2025-06-01T00:00:00Z")]
        "C1" "2025-06-01T00:00:00Z" "2025-06-01T00:00:00Z" rfl rfl rfl
    rw [heq]
    rfl
  · exact h3 [("cardId", jstr "C1"), ("dueDate", jstr "not-a-date")] "C1" "not-a-date"
      rfl rfl rfl
  · obtain ⟨heq, -, -⟩ :=
      h4 [("cardId", jstr "C1"), ("listId", jstr "L2"), ("position", jnum 7)]
        "C1" "L2" rfl rfl
    rw [heq]
    rfl
  · obtain ⟨heq, -, -⟩ :=
      h4 [("cardId", jstr "C1"), ("listId", jstr "L2")] "C1" "L2" rfl rfl
    rw [heq]
    rfl
